import Mathlib

/-!
Verification model of the Digital-Kidney simulation engine
(`src/lib/kidney-simulation.ts`, full variant).

JavaScript numbers are modelled as real numbers; `Math.round` is the
round-half-up integer rounding `round` of Mathlib, `Math.pow`/`Math.exp`/
`Math.log` are `Real.rpow`/`Real.exp`/`Real.log`.  Strings are Lean
`String`s; `toLowerCase`/`includes` are modelled on the character lists.
-/

namespace Kidney

/-- JS `Math.round` (half-up), returning a real number. -/
noncomputable def jround (x : ℝ) : ℝ := ((round x : ℤ) : ℝ)

/-- `round1` helper of the source: round to 1 decimal place. -/
noncomputable def round1 (x : ℝ) : ℝ := jround (x * 10) / 10

/-- `round2` helper of the source: round to 2 decimal places. -/
noncomputable def round2 (x : ℝ) : ℝ := jround (x * 100) / 100

/-- `clamp` helper of the source: `Math.min(Math.max(v, min), max)`. -/
noncomputable def clamp (v lo hi : ℝ) : ℝ := min (max v lo) hi

/-- `pat.isPrefix l`: the character list `pat` is a prefix of `l`. -/
def charPrefix : List Char → List Char → Bool
  | [], _ => true
  | _ :: _, [] => false
  | a :: as, b :: bs => a == b && charPrefix as bs

/-- `pat` occurs as a contiguous subsequence of `l` (JS `String.includes`). -/
def charsContain (pat : List Char) : List Char → Bool
  | [] => pat.isEmpty
  | c :: cs => charPrefix pat (c :: cs) || charsContain pat cs

/-- JS `toLowerCase` on the character list of a string (ASCII fold). -/
def lowerStr (s : String) : List Char := s.data.map Char.toLower

/-- `l.includes pat` for a lowered character list and a pattern string. -/
def inclStr (l : List Char) (pat : String) : Bool := charsContain pat.data l

/-- `PatientData` of the source. -/
structure PatientData where
  name : String
  age : ℝ
  gender : String
  weight : ℝ
  height : ℝ
  systolicBP : ℝ
  diastolicBP : ℝ
  glucose : ℝ
  uricAcid : ℝ
  hydrationLevel : ℝ
  serumCreatinine : ℝ
  bun : ℝ
  serumCalcium : ℝ
  serumPotassium : ℝ
  serumSodium : ℝ
  serumPhosphorus : ℝ
  serumAlbumin : ℝ
  hemoglobin : ℝ
  hba1c : ℝ
  cholesterol : ℝ
  triglycerides : ℝ
  urineProtein : ℝ
  urineAlbumin : ℝ
  egfrCysC : ℝ
  parathyroidHormone : ℝ
  vitaminD : ℝ
  cReactiveProtein : ℝ
  existingConditions : List String
  currentMedicines : List String
  proteinIntake : ℝ
  saltIntake : ℝ
  waterIntake : ℝ
  exerciseLevel : ℝ
  smokingStatus : String
  alcoholUnitsPerWeek : ℝ

/-- `RiskHeatmapData` of the source. -/
structure RiskHeatmapData where
  glomerular : ℝ
  tubular : ℝ
  vascular : ℝ
  interstitial : ℝ
  collecting : ℝ
  cortex : ℝ
  medulla : ℝ

/-- `KidneyMetrics` of the source. -/
structure KidneyMetrics where
  gfr : ℝ
  gfrCategory : String
  ckdStage : ℝ
  creatinine : ℝ
  uricAcid : ℝ
  bun : ℝ
  bunCreatinineRatio : ℝ
  stoneRisk : ℝ
  stressIndex : ℝ
  ckdProgressionRisk : ℝ
  cardiovascularRisk : ℝ
  akirisk : ℝ
  infectionRisk : ℝ
  efficiency : ℝ
  kidneyAge : ℝ
  filtrationRate : ℝ
  tubularReabsorption : ℝ
  electrolyteBalance : ℝ
  acidBaseBalance : ℝ
  mineralBoneScore : ℝ
  anemiaScore : ℝ
  inflammationScore : ℝ
  proteinuriaLevel : ℝ
  albuminuriaCategory : String
  kidneyPerfusionIndex : ℝ
  nephronHealth : ℝ
  interstitialHealth : ℝ
  vascularHealth : ℝ
  overallHealthScore : ℝ
  riskHeatmap : RiskHeatmapData

/-- `Treatment` of the source. -/
structure Treatment where
  id : String
  medicine : String
  dosage : String
  frequency : String
  tablets : ℝ
  category : Option String

/-- `DrugInteraction` of the source; severity is one of the strings
`"mild"`, `"moderate"`, `"severe"` as in the TypeScript union type. -/
structure DrugInteraction where
  drug1 : String
  drug2 : String
  severity : String
  description : String
  effect : String
deriving DecidableEq

/-- `TreatmentRanking` of the source. -/
structure TreatmentRanking where
  combination : List Treatment
  score : ℝ
  gfrImprovement : ℝ
  riskReduction : ℝ
  sideEffectRisk : ℝ
  interactionCount : ℝ
  reasoning : String

/-- The lifestyle-adjustments record passed to `simulateTreatment`. -/
structure Adjustments where
  hydration : ℝ
  proteinIntake : ℝ
  saltIntake : ℝ
  waterIntake : ℝ
  exerciseLevel : ℝ

/-- The static `DRUG_INTERACTIONS` table of the source (15 entries). -/
def DRUG_INTERACTIONS : List DrugInteraction := [
  ⟨"ace", "arb", "severe", "Dual RAAS blockade", "Hyperkalemia, hypotension, renal failure risk"⟩,
  ⟨"ace", "potassium", "severe", "ACEi + K+ supplements", "Life-threatening hyperkalemia"⟩,
  ⟨"ace", "nsaid", "moderate", "ACEi + NSAID", "Reduced antihypertensive effect, acute kidney injury risk"⟩,
  ⟨"arb", "potassium", "severe", "ARB + K+ supplements", "Life-threatening hyperkalemia"⟩,
  ⟨"arb", "nsaid", "moderate", "ARB + NSAID", "Reduced renal function, fluid retention"⟩,
  ⟨"metformin", "contrast", "severe", "Metformin + IV contrast", "Lactic acidosis risk"⟩,
  ⟨"allopurinol", "azathioprine", "severe", "Xanthine oxidase + thiopurine", "Bone marrow suppression"⟩,
  ⟨"diuretic", "ace", "moderate", "Diuretic + ACEi first dose", "Excessive hypotension"⟩,
  ⟨"diuretic", "lithium", "moderate", "Diuretic + Lithium", "Lithium toxicity"⟩,
  ⟨"diuretic", "nsaid", "moderate", "Diuretic + NSAID", "Reduced diuretic efficacy, renal impairment"⟩,
  ⟨"ccb", "beta_blocker", "mild", "CCB + Beta blocker", "Excessive bradycardia"⟩,
  ⟨"statin", "fibrate", "moderate", "Statin + Fibrate", "Rhabdomyolysis risk, acute kidney injury"⟩,
  ⟨"aminoglycoside", "diuretic", "severe", "Aminoglycoside + Loop diuretic", "Ototoxicity and nephrotoxicity"⟩,
  ⟨"cyclosporine", "nsaid", "severe", "Cyclosporine + NSAID", "Nephrotoxicity"⟩,
  ⟨"ace", "trimethoprim", "moderate", "ACEi + Trimethoprim", "Hyperkalemia"⟩]

/-- The static `MEDICINE_CATEGORIES` lexicon of the source, as an ordered
association list (JS `Object.entries` preserves insertion order). -/
def MEDICINE_CATEGORIES : List (String × List String) := [
  ("ace", ["enalapril", "lisinopril", "ramipril", "captopril", "perindopril", "benazepril", "fosinopril", "quinapril", "trandolapril"]),
  ("arb", ["losartan", "valsartan", "telmisartan", "irbesartan", "candesartan", "olmesartan", "azilsartan"]),
  ("ccb", ["amlodipine", "nifedipine", "felodipine", "diltiazem", "verapamil", "nicardipine"]),
  ("diuretic", ["furosemide", "hydrochlorothiazide", "spironolactone", "bumetanide", "torsemide", "amiloride", "chlorthalidone", "indapamide"]),
  ("beta_blocker", ["metoprolol", "atenolol", "carvedilol", "bisoprolol", "propranolol", "nebivolol"]),
  ("statin", ["atorvastatin", "rosuvastatin", "simvastatin", "pravastatin", "fluvastatin"]),
  ("xanthine_oxidase", ["allopurinol", "febuxostat"]),
  ("sglt2", ["empagliflozin", "dapagliflozin", "canagliflozin"]),
  ("dpp4", ["sitagliptin", "linagliptin", "saxagliptin", "alogliptin"]),
  ("glp1", ["semaglutide", "liraglutide", "dulaglutide", "exenatide"]),
  ("nsaid", ["ibuprofen", "naproxen", "diclofenac", "celecoxib", "indomethacin"]),
  ("anticoagulant", ["warfarin", "apixaban", "rivaroxaban", "dabigatran"]),
  ("phosphate_binder", ["sevelamer", "lanthanum", "calcium acetate", "calcium carbonate"]),
  ("esa", ["epoetin", "darbepoetin"]),
  ("iron", ["ferric carboxymaltose", "iron sucrose", "ferrous sulfate"])]

/-- `getMedicineCategory` of the source: exact-lexicon substring lookup in
table order, then the heuristic substring fallbacks. -/
def getMedicineCategory (medicine : String) : Option String :=
  let lower := lowerStr medicine
  match MEDICINE_CATEGORIES.find? (fun cd => cd.2.any (fun d => inclStr lower d)) with
  | some cd => some cd.1
  | none =>
    if inclStr lower "ace" && !inclStr lower "acetate" then some "ace"
    else if inclStr lower "arb" then some "arb"
    else if inclStr lower "diuretic" then some "diuretic"
    else if inclStr lower "metformin" then some "sglt2"
    else if inclStr lower "sodium bicarbonate" then some "alkalizer"
    else none

/-- The interactions produced by one ordered pair of treatments: every
interaction-table entry matched (in either orientation) by the two resolved
categories, with the actual medicine names substituted in. -/
def pairInteractions (t1 t2 : Treatment) : List DrugInteraction :=
  match getMedicineCategory t1.medicine, getMedicineCategory t2.medicine with
  | some c1, some c2 =>
      DRUG_INTERACTIONS.filterMap (fun e =>
        if (c1 = e.drug1 ∧ c2 = e.drug2) ∨ (c1 = e.drug2 ∧ c2 = e.drug1) then
          some { e with drug1 := t1.medicine, drug2 := t2.medicine }
        else none)
  | _, _ => []

/-- `detectDrugInteractions` of the source: the double loop over index pairs
`i < j`, in loop order. -/
def detectDrugInteractions : List Treatment → List DrugInteraction
  | [] => []
  | t :: rest => (rest.map (pairInteractions t)).flatten ++ detectDrugInteractions rest

/-- The running accumulators of `simulateTreatment`. -/
structure Deltas where
  gfrDelta : ℝ := 0
  creatinineDelta : ℝ := 0
  uricAcidDelta : ℝ := 0
  stressReduction : ℝ := 0
  stoneRiskReduction : ℝ := 0
  ckdProgReduction : ℝ := 0
  cvRiskReduction : ℝ := 0
  inflammationReduction : ℝ := 0
  anemiaImprovement : ℝ := 0
  mineralBoneImprovement : ℝ := 0

/-- Fieldwise sum of two accumulator records. -/
def Deltas.add (a b : Deltas) : Deltas :=
  ⟨a.gfrDelta + b.gfrDelta, a.creatinineDelta + b.creatinineDelta,
   a.uricAcidDelta + b.uricAcidDelta, a.stressReduction + b.stressReduction,
   a.stoneRiskReduction + b.stoneRiskReduction, a.ckdProgReduction + b.ckdProgReduction,
   a.cvRiskReduction + b.cvRiskReduction, a.inflammationReduction + b.inflammationReduction,
   a.anemiaImprovement + b.anemiaImprovement, a.mineralBoneImprovement + b.mineralBoneImprovement⟩

/-- The body of the per-treatment `switch` of `simulateTreatment`, over the
resolved category, the dose multiplier `min(tablets,3)` and the lowered
medicine name (the JS `switch` dispatches on string equality). -/
noncomputable def effectBundle (cat : Option String) (doseMultiplier : ℝ)
    (lower : List Char) : Deltas :=
  if cat = some "ace" then
    { gfrDelta := 5 * doseMultiplier * 0.7, stressReduction := 10,
      ckdProgReduction := 8, cvRiskReduction := 6 }
  else if cat = some "arb" then
    { gfrDelta := 4 * doseMultiplier * 0.7, stressReduction := 9,
      ckdProgReduction := 7, cvRiskReduction := 5 }
  else if cat = some "sglt2" then
    { gfrDelta := 6, stressReduction := 8, ckdProgReduction := 15,
      cvRiskReduction := 10, stoneRiskReduction := 3 }
  else if cat = some "xanthine_oxidase" then
    { uricAcidDelta := -2.5 * doseMultiplier * 0.6, stoneRiskReduction := 15,
      ckdProgReduction := 3 }
  else if cat = some "ccb" then { stressReduction := 8, cvRiskReduction := 5 }
  else if cat = some "diuretic" then
    { stressReduction := 6, gfrDelta := 2, stoneRiskReduction := 5 }
  else if cat = some "beta_blocker" then { stressReduction := 5, cvRiskReduction := 8 }
  else if cat = some "statin" then { cvRiskReduction := 12, inflammationReduction := 5 }
  else if cat = some "phosphate_binder" then { mineralBoneImprovement := 12 }
  else if cat = some "esa" then { anemiaImprovement := 20 }
  else if cat = some "iron" then { anemiaImprovement := 10 }
  else if cat = some "glp1" then
    { stressReduction := 5, ckdProgReduction := 8, cvRiskReduction := 8 }
  else
    let d : Deltas :=
      if inclStr lower "sodium bicarbonate" then
        { gfrDelta := 3, ckdProgReduction := 4 } else {}
    if inclStr lower "metformin" then
      { d with stressReduction := d.stressReduction + 5 } else d

/-- The per-treatment `switch` of `simulateTreatment`. -/
noncomputable def treatmentEffect (t : Treatment) : Deltas :=
  effectBundle (getMedicineCategory t.medicine) (min t.tablets 3) (lowerStr t.medicine)

/-- The lifestyle-adjustment section of `simulateTreatment`, applied to the
accumulators after the treatment loop. -/
noncomputable def lifestyleDeltas (patient : PatientData) (adjustments : Adjustments)
    (d : Deltas) : Deltas :=
  let hydrationDiff := adjustments.hydration - patient.hydrationLevel
  let d := if hydrationDiff > 0 then
      { d with stoneRiskReduction := d.stoneRiskReduction + hydrationDiff * 5,
               gfrDelta := d.gfrDelta + hydrationDiff * 0.5 } else d
  let waterDiff := adjustments.waterIntake - patient.waterIntake
  let d := if waterDiff > 0 then
      { d with stoneRiskReduction := d.stoneRiskReduction + waterDiff * 4 } else d
  let saltReduction := patient.saltIntake - adjustments.saltIntake
  let d := if saltReduction > 0 then
      { d with stressReduction := d.stressReduction + saltReduction * 3,
               gfrDelta := d.gfrDelta + saltReduction * 0.5,
               cvRiskReduction := d.cvRiskReduction + saltReduction * 1.5 } else d
  let proteinReduction := patient.proteinIntake - adjustments.proteinIntake
  let d := if proteinReduction > 0 then
      { d with stressReduction := d.stressReduction + proteinReduction * 0.1,
               creatinineDelta := d.creatinineDelta - proteinReduction * 0.002,
               ckdProgReduction := d.ckdProgReduction + proteinReduction * 0.15 } else d
  let exerciseDiff := adjustments.exerciseLevel - patient.exerciseLevel
  if exerciseDiff > 0 then
      { d with stressReduction := d.stressReduction + exerciseDiff * 1.5,
               cvRiskReduction := d.cvRiskReduction + exerciseDiff * 2,
               inflammationReduction := d.inflammationReduction + exerciseDiff * 1 } else d

/-- The drug-interaction penalty loop of `simulateTreatment`. -/
def interactionPenalty (d : Deltas) (i : DrugInteraction) : Deltas :=
  if i.severity = "severe" then
    { d with gfrDelta := d.gfrDelta - 3, stressReduction := d.stressReduction - 5 }
  else if i.severity = "moderate" then
    { d with gfrDelta := d.gfrDelta - 1, stressReduction := d.stressReduction - 2 }
  else d

/-- The net accumulator state of `simulateTreatment` after the treatment
loop, the lifestyle adjustments and the interaction penalties. -/
noncomputable def netDeltas (patient : PatientData) (treatments : List Treatment)
    (adjustments : Adjustments) : Deltas :=
  let d := treatments.foldl (fun d t => d.add (treatmentEffect t)) {}
  let d := lifestyleDeltas patient adjustments d
  (detectDrugInteractions treatments).foldl interactionPenalty d

/-- `getGFRCategory` of the source. -/
noncomputable def getGFRCategory (gfr : ℝ) : String :=
  if gfr ≥ 90 then "G1 - Normal or High"
  else if gfr ≥ 60 then "G2 - Mildly decreased"
  else if gfr ≥ 45 then "G3a - Mild-moderate decrease"
  else if gfr ≥ 30 then "G3b - Moderate-severe decrease"
  else if gfr ≥ 15 then "G4 - Severely decreased"
  else "G5 - Kidney failure"

/-- `getCKDStage` of the source. -/
noncomputable def getCKDStage (gfr : ℝ) : ℝ :=
  if gfr ≥ 90 then 1
  else if gfr ≥ 60 then 2
  else if gfr ≥ 45 then 3
  else if gfr ≥ 30 then 3
  else if gfr ≥ 15 then 4
  else 5

/-- `getAlbuminuriaCategory` of the source. -/
noncomputable def getAlbuminuriaCategory (albumin : ℝ) : String :=
  if albumin < 30 then "A1 - Normal"
  else if albumin < 300 then "A2 - Moderately increased"
  else "A3 - Severely increased"

/-- `calculateGFR` of the source: CKD-EPI 2021 race-free formula. -/
noncomputable def calculateGFR (age : ℝ) (gender : String) (creatinine : ℝ)
    (_weight : ℝ) : ℝ :=
  let kappa : ℝ := if gender = "female" then 0.7 else 0.9
  let alpha : ℝ := if gender = "female" then -0.241 else -0.302
  let ratio := creatinine / kappa
  let minR := min ratio 1
  let maxR := max ratio 1
  let gfr := 142 * minR ^ alpha * maxR ^ (-1.2 : ℝ) * (0.9938 : ℝ) ^ age
  let gfr := if gender = "female" then gfr * 1.012 else gfr
  round1 (clamp gfr 3 160)

/-- `simulateTreatment` of the source: apply the net accumulators to the
baseline snapshot and rebuild every derived field. -/
noncomputable def simulateTreatment (baseline : KidneyMetrics) (patient : PatientData)
    (treatments : List Treatment) (adjustments : Adjustments) : KidneyMetrics :=
  let d := netDeltas patient treatments adjustments
  let newGfr := clamp (baseline.gfr + d.gfrDelta) 5 150
  let newCreatinine := max (baseline.creatinine + d.creatinineDelta) 0.3
  let newUricAcid := max (baseline.uricAcid + d.uricAcidDelta) 1
  let newStress := max (baseline.stressIndex - d.stressReduction) 0
  let newStoneRisk := max (baseline.stoneRisk - d.stoneRiskReduction) 0
  let newEfficiency := clamp (newGfr / 120 * 100) 5 100
  let newCkdProg := max (baseline.ckdProgressionRisk - d.ckdProgReduction) 0
  let newCvRisk := max (baseline.cardiovascularRisk - d.cvRiskReduction) 0
  let r := baseline
  { gfr := round1 newGfr
    gfrCategory := getGFRCategory newGfr
    ckdStage := getCKDStage newGfr
    creatinine := round2 newCreatinine
    uricAcid := round1 newUricAcid
    bun := round1 (r.bun * (newCreatinine / r.creatinine))
    bunCreatinineRatio := round1 ((r.bun * (newCreatinine / r.creatinine)) / newCreatinine)
    stoneRisk := jround newStoneRisk
    stressIndex := jround newStress
    ckdProgressionRisk := jround newCkdProg
    cardiovascularRisk := jround newCvRisk
    akirisk := jround (max (r.akirisk - d.stressReduction * 0.3) 0)
    infectionRisk := jround (max (r.infectionRisk - d.stressReduction * 0.1) 0)
    efficiency := jround newEfficiency
    kidneyAge := jround (patient.age + (100 - newEfficiency) * 0.4 + newStress * 0.1)
    filtrationRate := jround (newGfr * 1.44)
    tubularReabsorption := jround (99 - newStress * 0.05)
    electrolyteBalance := clamp (r.electrolyteBalance + jround (d.stressReduction * 0.3)) 0 100
    acidBaseBalance := clamp (r.acidBaseBalance + jround (d.stressReduction * 0.2)) 0 100
    mineralBoneScore := clamp (r.mineralBoneScore + jround d.mineralBoneImprovement) 0 100
    anemiaScore := clamp (r.anemiaScore + jround d.anemiaImprovement) 0 100
    inflammationScore := clamp (r.inflammationScore + jround d.inflammationReduction) 0 100
    proteinuriaLevel := max (r.proteinuriaLevel * (1 - d.ckdProgReduction * 0.01)) 0
    albuminuriaCategory := r.albuminuriaCategory
    kidneyPerfusionIndex := clamp (r.kidneyPerfusionIndex + jround (d.stressReduction * 0.2)) 0 100
    nephronHealth := clamp (jround (newEfficiency * 0.7 + (100 - newStress) * 0.3)) 0 100
    interstitialHealth := clamp (r.interstitialHealth + jround (d.stressReduction * 0.2)) 0 100
    vascularHealth := clamp (r.vascularHealth + jround (d.cvRiskReduction * 0.3)) 0 100
    overallHealthScore := clamp (jround (
      newEfficiency * 0.25 +
      (100 - newStress) * 0.15 +
      (100 - newStoneRisk) * 0.05 +
      (100 - newCkdProg) * 0.15 +
      clamp (r.electrolyteBalance + d.stressReduction * 0.3) 0 100 * 0.1 +
      clamp (newEfficiency * 0.7 + (100 - newStress) * 0.3) 0 100 * 0.1 +
      clamp (r.vascularHealth + d.cvRiskReduction * 0.3) 0 100 * 0.1 +
      clamp (r.mineralBoneScore + d.mineralBoneImprovement) 0 100 * 0.05 +
      clamp (r.anemiaScore + d.anemiaImprovement) 0 100 * 0.05)) 0 100
    riskHeatmap :=
      { glomerular := clamp (100 - (100 - newEfficiency) * 1.2) 0 100
        tubular := clamp (100 - newStress * 0.8) 0 100
        vascular := clamp (r.vascularHealth + d.cvRiskReduction * 0.3) 0 100
        interstitial := clamp (r.interstitialHealth + d.stressReduction * 0.2) 0 100
        collecting := clamp (90 - newStoneRisk * 0.3) 0 100
        cortex := clamp ((newEfficiency * 0.7 + (100 - newStress) * 0.3) * 0.9 +
          clamp (r.kidneyPerfusionIndex + d.stressReduction * 0.2) 0 100 * 0.1) 0 100
        medulla := clamp (85 - newStress * 0.3 - newStoneRisk * 0.2) 0 100 } }

/-- The baseline GFR of a patient (`calculateBaselineMetrics`, first line). -/
noncomputable def gfrOf (p : PatientData) : ℝ :=
  calculateGFR p.age p.gender p.serumCreatinine p.weight

/-- The stone-risk accumulation of `calculateBaselineMetrics`, before the
final clamp. -/
noncomputable def stoneRiskRaw (p : PatientData) : ℝ :=
  let v : ℝ := 8
  let v := if p.uricAcid > 6 then v + (p.uricAcid - 6) * 12 else v
  let v := if p.serumCalcium > 10 then v + (p.serumCalcium - 10) * 15 else v
  let v := if p.serumPhosphorus > 4.5 then v + (p.serumPhosphorus - 4.5) * 8 else v
  let v := if p.hydrationLevel < 5 then v + (5 - p.hydrationLevel) * 8 else v
  let v := if p.waterIntake < 2 then v + (2 - p.waterIntake) * 10 else v
  let v := if p.existingConditions.contains "kidney_stones" then v + 20 else v
  let v := if p.existingConditions.contains "gout" then v + 10 else v
  if p.urineProtein > 150 then v + 5 else v

/-- The clamped stone-risk score. -/
noncomputable def stoneRiskVal (p : PatientData) : ℝ := clamp (stoneRiskRaw p) 0 100

/-- The stress-index accumulation of `calculateBaselineMetrics`, before the
final clamp. -/
noncomputable def stressIndexRaw (p : PatientData) : ℝ :=
  let v : ℝ := 15
  let v := if p.systolicBP > 130 then v + (p.systolicBP - 130) * 0.5 else v
  let v := if p.diastolicBP > 85 then v + (p.diastolicBP - 85) * 0.4 else v
  let v := if p.glucose > 100 then v + (p.glucose - 100) * 0.3 else v
  let v := if p.hba1c > 6.5 then v + (p.hba1c - 6.5) * 5 else v
  let v := if p.existingConditions.contains "diabetes" then v + 15 else v
  let v := if p.existingConditions.contains "hypertension" then v + 12 else v
  let v := if p.saltIntake > 5 then v + (p.saltIntake - 5) * 4 else v
  let v := if p.cReactiveProtein > 3 then v + (p.cReactiveProtein - 3) * 2 else v
  let v := if p.smokingStatus = "current" then v + 10 else v
  let v := if p.smokingStatus = "former" then v + 3 else v
  let v := if p.alcoholUnitsPerWeek > 14 then v + (p.alcoholUnitsPerWeek - 14) * 0.5 else v
  let v := if p.proteinIntake > 80 then v + (p.proteinIntake - 80) * 0.2 else v
  if p.cholesterol > 200 then v + (p.cholesterol - 200) * 0.05 else v

/-- The clamped stress-index score. -/
noncomputable def stressIndexVal (p : PatientData) : ℝ := clamp (stressIndexRaw p) 0 100

/-- The CKD-progression accumulation of `calculateBaselineMetrics`, before
the final clamp. -/
noncomputable def ckdProgressionRaw (p : PatientData) : ℝ :=
  let v : ℝ := 10
  let v := if gfrOf p < 60 then v + (60 - gfrOf p) * 0.8 else v
  let v := if p.urineAlbumin > 30 then v + Real.log (p.urineAlbumin / 30) * 10 else v
  let v := if p.urineProtein > 500 then v + 15 else v
  let v := if p.existingConditions.contains "diabetes" then v + 12 else v
  let v := if p.existingConditions.contains "hypertension" then v + 8 else v
  let v := if p.existingConditions.contains "ckd" then v + 15 else v
  let v := if p.hba1c > 7 then v + (p.hba1c - 7) * 4 else v
  if p.systolicBP > 140 then v + 8 else v

/-- The clamped CKD-progression score. -/
noncomputable def ckdProgressionVal (p : PatientData) : ℝ := clamp (ckdProgressionRaw p) 0 100

/-- The cardiovascular-risk accumulation of `calculateBaselineMetrics`,
before the final clamp. -/
noncomputable def cvRiskRaw (p : PatientData) : ℝ :=
  let v : ℝ := 8
  let v := if p.systolicBP > 140 then v + (p.systolicBP - 140) * 0.6 else v
  let v := if p.cholesterol > 200 then v + (p.cholesterol - 200) * 0.1 else v
  let v := if p.triglycerides > 150 then v + (p.triglycerides - 150) * 0.05 else v
  let v := if gfrOf p < 60 then v + (60 - gfrOf p) * 0.5 else v
  let v := if p.existingConditions.contains "heart_disease" then v + 20 else v
  let v := if p.existingConditions.contains "diabetes" then v + 10 else v
  let v := if p.smokingStatus = "current" then v + 12 else v
  if p.age > 55 then v + (p.age - 55) * 0.5 else v

/-- The clamped cardiovascular-risk score. -/
noncomputable def cvRiskVal (p : PatientData) : ℝ := clamp (cvRiskRaw p) 0 100

/-- The acute-kidney-injury risk accumulation of `calculateBaselineMetrics`,
before the final clamp. -/
noncomputable def akiriskRaw (p : PatientData) : ℝ :=
  let v : ℝ := 5
  let v := if gfrOf p < 45 then v + 15 else v
  let v := if p.age > 65 then v + 8 else v
  let v := if p.existingConditions.contains "diabetes" then v + 8 else v
  let v := if p.existingConditions.contains "heart_disease" then v + 10 else v
  let v := if p.hydrationLevel < 3 then v + 15 else v
  let v := if p.serumCreatinine > 1.5 then v + (p.serumCreatinine - 1.5) * 10 else v
  let hasNSAID := p.currentMedicines.any (fun m =>
    ["ibuprofen", "naproxen", "diclofenac", "celecoxib", "indomethacin"].any
      (fun n => inclStr (lowerStr m) n))
  if hasNSAID then v + 12 else v

/-- The clamped AKI-risk score. -/
noncomputable def akiriskVal (p : PatientData) : ℝ := clamp (akiriskRaw p) 0 100

/-- The infection-risk accumulation of `calculateBaselineMetrics`, before
the final clamp. -/
noncomputable def infectionRiskRaw (p : PatientData) : ℝ :=
  let v : ℝ := 5
  let v := if gfrOf p < 30 then v + 15 else v
  let v := if p.existingConditions.contains "diabetes" then v + 10 else v
  let v := if p.existingConditions.contains "uti" then v + 15 else v
  let v := if p.age > 70 then v + 8 else v
  if p.serumAlbumin < 3.5 then v + (3.5 - p.serumAlbumin) * 10 else v

/-- The clamped infection-risk score. -/
noncomputable def infectionRiskVal (p : PatientData) : ℝ := clamp (infectionRiskRaw p) 0 100

/-- The efficiency score of `calculateBaselineMetrics`:
`min(gfr/120*100, 100)` then `max(_, 5)`. -/
noncomputable def efficiencyVal (p : PatientData) : ℝ :=
  max (min (gfrOf p / 120 * 100) 100) 5

/-- The electrolyte-balance accumulation of `calculateBaselineMetrics`
(clamped only at the field). -/
noncomputable def electrolyteBalanceRaw (p : PatientData) : ℝ :=
  let v : ℝ := 90
  let v := if p.serumPotassium < 3.5 ∨ p.serumPotassium > 5.1 then v - 25
    else if p.serumPotassium < 3.8 ∨ p.serumPotassium > 4.8 then v - 8 else v
  let v := if p.serumSodium < 136 ∨ p.serumSodium > 146 then v - 20
    else if p.serumSodium < 138 ∨ p.serumSodium > 144 then v - 8 else v
  let v := if p.serumCalcium < 8.8 ∨ p.serumCalcium > 10.6 then v - 15 else v
  if p.serumPhosphorus < 2.5 ∨ p.serumPhosphorus > 4.5 then v - 12 else v

/-- The mineral-bone accumulation of `calculateBaselineMetrics`, before the
final clamp. -/
noncomputable def mineralBoneRaw (p : PatientData) : ℝ :=
  let v : ℝ := 85
  let v := if p.parathyroidHormone > 65 then v - min ((p.parathyroidHormone - 65) * 0.3) 30 else v
  let v := if p.vitaminD < 30 then v - (30 - p.vitaminD) * 0.8 else v
  let v := if p.serumCalcium < 8.5 ∨ p.serumCalcium > 10.5 then v - 15 else v
  if p.serumPhosphorus > 4.5 then v - (p.serumPhosphorus - 4.5) * 8 else v

/-- The clamped mineral-bone score. -/
noncomputable def mineralBoneVal (p : PatientData) : ℝ := clamp (mineralBoneRaw p) 0 100

/-- The anemia accumulation of `calculateBaselineMetrics`, before the final
clamp. -/
noncomputable def anemiaRaw (p : PatientData) : ℝ :=
  let v : ℝ := 90
  let hbLow : ℝ := if p.gender = "female" then 12 else 13
  let v := if p.hemoglobin < hbLow then v - (hbLow - p.hemoglobin) * 15 else v
  let v := if gfrOf p < 45 then v - 10 else v
  if p.serumAlbumin < 3.5 then v - 8 else v

/-- The clamped anemia score. -/
noncomputable def anemiaVal (p : PatientData) : ℝ := clamp (anemiaRaw p) 0 100

/-- The inflammation accumulation of `calculateBaselineMetrics`, before the
final clamp. -/
noncomputable def inflammationRaw (p : PatientData) : ℝ :=
  let v : ℝ := 90
  let v := if p.cReactiveProtein > 1 then v - min (p.cReactiveProtein * 5) 40 else v
  if p.serumAlbumin < 3.5 then v - 10 else v

/-- The clamped inflammation score. -/
noncomputable def inflammationVal (p : PatientData) : ℝ := clamp (inflammationRaw p) 0 100

/-- The kidney-perfusion accumulation of `calculateBaselineMetrics`, before
the final clamp. -/
noncomputable def kidneyPerfusionRaw (p : PatientData) : ℝ :=
  let v : ℝ := 85
  let v := if p.systolicBP > 140 then v - (p.systolicBP - 140) * 0.3 else v
  let v := if p.systolicBP < 90 then v - (90 - p.systolicBP) * 0.5 else v
  let v := if p.existingConditions.contains "heart_disease" then v - 12 else v
  if gfrOf p < 60 then v - (60 - gfrOf p) * 0.3 else v

/-- The clamped kidney-perfusion score. -/
noncomputable def kidneyPerfusionVal (p : PatientData) : ℝ := clamp (kidneyPerfusionRaw p) 0 100

/-- The nephron-health score of `calculateBaselineMetrics` (rounded then
clamped). -/
noncomputable def nephronHealthVal (p : PatientData) : ℝ :=
  clamp (jround (efficiencyVal p * 0.7 + (100 - stressIndexVal p) * 0.3)) 0 100

/-- The interstitial-health accumulation of `calculateBaselineMetrics`,
before the final clamp. -/
noncomputable def interstitialRaw (p : PatientData) : ℝ :=
  let v : ℝ := 85
  let v := if p.urineProtein > 150 then v - min (p.urineProtein * 0.02) 25 else v
  let v := if p.cReactiveProtein > 3 then v - 10 else v
  if p.existingConditions.contains "uti" then v - 10 else v

/-- The clamped interstitial-health score. -/
noncomputable def interstitialVal (p : PatientData) : ℝ := clamp (interstitialRaw p) 0 100

/-- The vascular-health accumulation of `calculateBaselineMetrics`, before
the final clamp. -/
noncomputable def vascularRaw (p : PatientData) : ℝ :=
  let v : ℝ := 85
  let v := if p.systolicBP > 130 then v - (p.systolicBP - 130) * 0.4 else v
  let v := if p.cholesterol > 200 then v - (p.cholesterol - 200) * 0.08 else v
  let v := if p.existingConditions.contains "diabetes" then v - 10 else v
  if p.smokingStatus = "current" then v - 12 else v

/-- The clamped vascular-health score. -/
noncomputable def vascularVal (p : PatientData) : ℝ := clamp (vascularRaw p) 0 100

/-- The weighted overall-health composite of `calculateBaselineMetrics`,
before rounding and clamping. -/
noncomputable def overallRaw (p : PatientData) : ℝ :=
  efficiencyVal p * 0.25 +
  (100 - stressIndexVal p) * 0.15 +
  (100 - stoneRiskVal p) * 0.05 +
  (100 - ckdProgressionVal p) * 0.15 +
  electrolyteBalanceRaw p * 0.1 +
  nephronHealthVal p * 0.1 +
  vascularVal p * 0.1 +
  mineralBoneVal p * 0.05 +
  anemiaVal p * 0.05

/-- `calculateBaselineMetrics` of the source, assembled from the named
per-score accumulations above (each the literal accumulation chain of the
source, in source order). -/
noncomputable def calculateBaselineMetrics (patient : PatientData) : KidneyMetrics :=
  let gfr := gfrOf patient
  { gfr := gfr
    gfrCategory := getGFRCategory gfr
    ckdStage := getCKDStage gfr
    creatinine := patient.serumCreatinine
    uricAcid := patient.uricAcid
    bun := patient.bun
    bunCreatinineRatio := jround (patient.bun / patient.serumCreatinine * 10) / 10
    stoneRisk := jround (stoneRiskVal patient)
    stressIndex := jround (stressIndexVal patient)
    ckdProgressionRisk := jround (ckdProgressionVal patient)
    cardiovascularRisk := jround (cvRiskVal patient)
    akirisk := jround (akiriskVal patient)
    infectionRisk := jround (infectionRiskVal patient)
    efficiency := jround (efficiencyVal patient)
    kidneyAge := jround (patient.age + (100 - efficiencyVal patient) * 0.4 +
      stressIndexVal patient * 0.1)
    filtrationRate := jround (gfr * 1.44)
    tubularReabsorption := jround (99 - stressIndexVal patient * 0.05)
    electrolyteBalance := jround (clamp (electrolyteBalanceRaw patient) 0 100)
    acidBaseBalance := jround (clamp (85 - stressIndexVal patient * 0.15) 0 100)
    mineralBoneScore := jround (mineralBoneVal patient)
    anemiaScore := jround (anemiaVal patient)
    inflammationScore := jround (inflammationVal patient)
    proteinuriaLevel := patient.urineProtein
    albuminuriaCategory := getAlbuminuriaCategory patient.urineAlbumin
    kidneyPerfusionIndex := jround (kidneyPerfusionVal patient)
    nephronHealth := nephronHealthVal patient
    interstitialHealth := jround (interstitialVal patient)
    vascularHealth := jround (vascularVal patient)
    overallHealthScore := clamp (jround (overallRaw patient)) 0 100
    riskHeatmap :=
      { glomerular := clamp (100 - (100 - efficiencyVal patient) * 1.2) 0 100
        tubular := clamp (100 - stressIndexVal patient * 0.8) 0 100
        vascular := vascularVal patient
        interstitial := interstitialVal patient
        collecting := clamp (90 - stoneRiskVal patient * 0.3) 0 100
        cortex := clamp (nephronHealthVal patient * 0.9 + kidneyPerfusionVal patient * 0.1) 0 100
        medulla := clamp (85 - stressIndexVal patient * 0.3 - stoneRiskVal patient * 0.2) 0 100 } }

/-- `predictFutureMetrics` of the source: exponential-approach projection;
all fields not listed are spread through unchanged. -/
noncomputable def predictFutureMetrics (simulated : KidneyMetrics) (daysAhead : ℝ) :
    KidneyMetrics :=
  let months := daysAhead / 30
  let improvementFactor := 1 - Real.exp (-(months / 6))
  let maxGfrImprovement := (simulated.efficiency - 40) * 0.08
  let stressDampening := improvementFactor * 5
  let riskDampening := improvementFactor * 8
  let newGfr := simulated.gfr + maxGfrImprovement * improvementFactor * 2
  let newEfficiency := clamp (simulated.efficiency + maxGfrImprovement * improvementFactor) 5 100
  let newStress := max (simulated.stressIndex - stressDampening) 0
  let newStoneRisk := max (simulated.stoneRisk - riskDampening) 0
  let newCkdProg := max (simulated.ckdProgressionRisk - riskDampening * 0.6) 0
  let newCvRisk := max (simulated.cardiovascularRisk - riskDampening * 0.4) 0
  { simulated with
    gfr := round1 newGfr
    gfrCategory := getGFRCategory newGfr
    ckdStage := getCKDStage newGfr
    efficiency := jround newEfficiency
    stressIndex := jround newStress
    stoneRisk := jround newStoneRisk
    ckdProgressionRisk := jround newCkdProg
    cardiovascularRisk := jround newCvRisk
    overallHealthScore := clamp (jround (simulated.overallHealthScore + improvementFactor * 5)) 0 100
    riskHeatmap := { simulated.riskHeatmap with
      glomerular := clamp (simulated.riskHeatmap.glomerular + improvementFactor * 3) 0 100
      tubular := clamp (simulated.riskHeatmap.tubular + improvementFactor * 3) 0 100
      vascular := clamp (simulated.riskHeatmap.vascular + improvementFactor * 2) 0 100 } }

/-- The singleton combinations generated by `rankTreatmentCombinations`. -/
def singlesOf {α : Type} (ts : List α) : List (List α) := ts.map (fun t => [t])

/-- The index pairs `i < j` generated by `rankTreatmentCombinations`, in loop
order. -/
def pairsOf {α : Type} : List α → List (List α)
  | [] => []
  | x :: xs => xs.map (fun y => [x, y]) ++ pairsOf xs

/-- The index triples `i < j < k` generated by `rankTreatmentCombinations`,
in loop order. -/
def triplesOf {α : Type} : List α → List (List α)
  | [] => []
  | x :: xs => (pairsOf xs).map (fun p => x :: p) ++ triplesOf xs

/-- The full combination list generated by `rankTreatmentCombinations`
(singles, then pairs, then triples; the `maxSize` variable of the source is
dead code and generates no size-4 subsets). -/
def combosOf {α : Type} (ts : List α) : List (List α) :=
  singlesOf ts ++ (if ts.length ≥ 2 then pairsOf ts else []) ++
    (if ts.length ≥ 3 then triplesOf ts else [])

/-- JS number-to-string conversion used only inside the human-readable
`reasoning` strings.  It is host-runtime behaviour, not code of this
repository, and no claim depends on the reasoning text, so it is modelled as
a constant formatter. -/
def formatReal (_ : ℝ) : String := ""

/-- `generateReasoning` of the source. -/
noncomputable def generateReasoning (combo : List Treatment)
    (interactions : List DrugInteraction) (gfrImp riskRed : ℝ) : String :=
  let parts : List String :=
    (if gfrImp > 5 then ["Strong GFR improvement (+" ++ formatReal (round1 gfrImp) ++ ")"]
     else if gfrImp > 0 then ["Moderate GFR benefit (+" ++ formatReal (round1 gfrImp) ++ ")"]
     else []) ++
    (if riskRed > 15 then ["significant risk reduction"] else []) ++
    (if interactions.length = 0 then ["no drug interactions"]
     else
       let severe := (interactions.filter (fun i => i.severity = "severe")).length
       if severe > 0 then [formatReal severe ++ " severe interaction(s)"]
       else [formatReal interactions.length ++ " mild/moderate interaction(s)"]) ++
    (if combo.length = 1 then ["monotherapy"]
     else [formatReal combo.length ++ "-drug regimen"])
  String.intercalate " • " parts

/-- The adjustments record equal to a patient's own lifestyle values (the
`defaultAdj` of `rankTreatmentCombinations`). -/
def ownAdjustments (patient : PatientData) : Adjustments :=
  ⟨patient.hydrationLevel, patient.proteinIntake, patient.saltIntake,
   patient.waterIntake, patient.exerciseLevel⟩

/-- The body of the `combos.map` in `rankTreatmentCombinations`: evaluate one
combination with the patient's unchanged lifestyle values. -/
noncomputable def scoreCombination (baseline : KidneyMetrics) (patient : PatientData)
    (combo : List Treatment) : TreatmentRanking :=
  let result := simulateTreatment baseline patient combo (ownAdjustments patient)
  let interactions := detectDrugInteractions combo
  let severeCount := (interactions.filter (fun i => i.severity = "severe")).length
  let modCount := (interactions.filter (fun i => i.severity = "moderate")).length
  let gfrImprovement := result.gfr - baseline.gfr
  let riskReduction := (baseline.ckdProgressionRisk - result.ckdProgressionRisk) +
    (baseline.cardiovascularRisk - result.cardiovascularRisk) * 0.5 +
    (baseline.stoneRisk - result.stoneRisk) * 0.3
  let sideEffectRisk : ℝ := severeCount * 30 + modCount * 10
  let score := jround (gfrImprovement * 3 + riskReduction * 1.5 +
    (result.overallHealthScore - baseline.overallHealthScore) * 2 - sideEffectRisk * 2)
  { combination := combo
    score := score
    gfrImprovement := round1 gfrImprovement
    riskReduction := jround riskReduction
    sideEffectRisk := jround sideEffectRisk
    interactionCount := interactions.length
    reasoning := generateReasoning combo interactions gfrImprovement riskReduction }

/-- The descending stable comparison used by the ranker's JS `sort`
comparator `(a, b) => b.score - a.score`. -/
noncomputable def rankLE (a b : TreatmentRanking) : Bool := decide (b.score ≤ a.score)

/-- `rankTreatmentCombinations` of the source. -/
noncomputable def rankTreatmentCombinations (baseline : KidneyMetrics)
    (patient : PatientData) (availableTreatments : List Treatment) :
    List TreatmentRanking :=
  if availableTreatments.length = 0 then []
  else
    (((combosOf availableTreatments).map (scoreCombination baseline patient)).mergeSort
      rankLE).take 10

/-- CKD-EPI 2021 GFR as worded by the specification (§4.1), for the
refinement claim C3: stated from the spec text, to be compared with
`calculateGFR` as translated from the source. -/
noncomputable def gfrSpecFormula (age : ℝ) (gender : String) (creatinine : ℝ) : ℝ :=
  let kappa : ℝ := if gender = "female" then 0.7 else 0.9
  let alpha : ℝ := if gender = "female" then -0.241 else -0.302
  let ratio := creatinine / kappa
  let minR := min ratio 1
  let maxR := max ratio 1
  let base := 142 * minR ^ alpha * maxR ^ (-1.2 : ℝ) * (0.9938 : ℝ) ^ age
  let adjusted := if gender = "female" then base * 1.012 else base
  round1 (clamp adjusted 3 160)

/-- A concrete, clinically unremarkable patient used by witnesses. -/
def basePatient : PatientData :=
  { name := "Test"
    age := 50
    gender := "male"
    weight := 80
    height := 170
    systolicBP := 120
    diastolicBP := 80
    glucose := 90
    uricAcid := 5
    hydrationLevel := 7
    serumCreatinine := 1
    bun := 14
    serumCalcium := 9.5
    serumPotassium := 4.2
    serumSodium := 140
    serumPhosphorus := 3.5
    serumAlbumin := 4.2
    hemoglobin := 14
    hba1c := 5.4
    cholesterol := 180
    triglycerides := 120
    urineProtein := 80
    urineAlbumin := 10
    egfrCysC := 0
    parathyroidHormone := 40
    vitaminD := 35
    cReactiveProtein := 0.5
    existingConditions := []
    currentMedicines := []
    proteinIntake := 70
    saltIntake := 4
    waterIntake := 2.5
    exerciseLevel := 5
    smokingStatus := "never"
    alcoholUnitsPerWeek := 2 }

/-- A patient with extreme serum creatinine, whose baseline GFR clamps to 3. -/
def extremePatient : PatientData := { basePatient with serumCreatinine := 1000 }

/-- A patient whose serum creatinine 0.2 lies below the simulator's 0.3 floor. -/
def lowCreatininePatient : PatientData := { basePatient with serumCreatinine := 0.2 }

/-- A concrete ACE-inhibitor treatment. -/
def tLisinopril : Treatment :=
  { id := "t1", medicine := "Lisinopril", dosage := "10mg", frequency := "daily",
    tablets := 1, category := none }

/-- A concrete ARB treatment. -/
def tLosartan : Treatment :=
  { id := "t2", medicine := "Losartan", dosage := "50mg", frequency := "daily",
    tablets := 1, category := none }

/-- A concrete metformin treatment. -/
def tMetformin : Treatment :=
  { id := "t3", medicine := "Metformin", dosage := "500mg", frequency := "daily",
    tablets := 1, category := none }

/-- A concrete acetaminophen treatment. -/
def tAcetaminophen : Treatment :=
  { id := "t4", medicine := "Acetaminophen", dosage := "500mg", frequency := "daily",
    tablets := 1, category := none }

/-- The canonical view of a produced interaction used to compare detection
results with the substituted medicine-name pair taken as unordered. -/
def canonInteraction (i : DrugInteraction) :
    Multiset String × String × String × String :=
  (({i.drug1, i.drug2} : Multiset String), i.severity, i.description, i.effect)

/-- `name` matches no entry of the exact drug lexicon (no drug name of any
`MEDICINE_CATEGORIES` row is a substring of the lowered `name`). -/
def lexiconMiss (name : String) : Bool :=
  MEDICINE_CATEGORIES.all (fun cd => !cd.2.any (fun d => inclStr (lowerStr name) d))

/-- A concrete metrics snapshot whose `gfr` (0.05) is off the one-decimal
grid; all other fields are unremarkable in-range values. -/
noncomputable def offGridMetrics : KidneyMetrics :=
  { gfr := 0.05, gfrCategory := "G5 - Kidney failure", ckdStage := 5, creatinine := 1,
    uricAcid := 5, bun := 14, bunCreatinineRatio := 14, stoneRisk := 10, stressIndex := 10,
    ckdProgressionRisk := 10, cardiovascularRisk := 10, akirisk := 10, infectionRisk := 10,
    efficiency := 50, kidneyAge := 50, filtrationRate := 10, tubularReabsorption := 98,
    electrolyteBalance := 90, acidBaseBalance := 85, mineralBoneScore := 85, anemiaScore := 90,
    inflammationScore := 90, proteinuriaLevel := 80, albuminuriaCategory := "A1 - Normal",
    kidneyPerfusionIndex := 85, nephronHealth := 70, interstitialHealth := 85,
    vascularHealth := 85, overallHealthScore := 70,
    riskHeatmap :=
      { glomerular := 80, tubular := 80, vascular := 85, interstitial := 85,
        collecting := 80, cortex := 75, medulla := 75 } }

/-- A concrete metrics snapshot that is a fixed point of every rounding and
clamp the projector applies at horizon 0. -/
noncomputable def niceMetrics : KidneyMetrics :=
  { offGridMetrics with gfr := 90, gfrCategory := "G1 - Normal or High", ckdStage := 1 }

end Kidney

namespace Kidney

/-! ### Arithmetic facts about the JS rounding and clamping helpers -/

theorem jround_mono {x y : ℝ} (h : x ≤ y) : jround x ≤ jround y := by
  have hr : round x ≤ round y := by
    rw [round_eq, round_eq]
    exact Int.floor_mono (by linarith)
  unfold jround
  exact_mod_cast hr

theorem jround_int (n : ℤ) : jround ((n : ℝ)) = (n : ℝ) := by
  unfold jround
  rw [round_intCast]

theorem jround_jround (x : ℝ) : jround (jround x) = jround x := jround_int _

theorem le_jround {x : ℝ} {n : ℤ} (h : (n : ℝ) ≤ x) : (n : ℝ) ≤ jround x := by
  have h2 := jround_mono h
  rwa [jround_int] at h2

theorem jround_le {x : ℝ} {n : ℤ} (h : x ≤ (n : ℝ)) : jround x ≤ (n : ℝ) := by
  have h2 := jround_mono h
  rwa [jround_int] at h2

theorem jround_nonneg {x : ℝ} (h : 0 ≤ x) : 0 ≤ jround x := by
  have h2 := le_jround (n := 0) (by exact_mod_cast h)
  exact_mod_cast h2

theorem jround_le_hundred {x : ℝ} (h : x ≤ 100) : jround x ≤ 100 := by
  have h2 := jround_le (n := 100) (by exact_mod_cast h)
  exact_mod_cast h2

theorem jround_eq {x : ℝ} {n : ℤ} (h1 : (n : ℝ) ≤ x + 1 / 2) (h2 : x + 1 / 2 < (n : ℝ) + 1) :
    jround x = (n : ℝ) := by
  have hf : ⌊x + 1 / 2⌋ = n := Int.floor_eq_iff.mpr ⟨h1, by linarith⟩
  unfold jround
  rw [round_eq, hf]

theorem clamp_le_right (v lo hi : ℝ) : clamp v lo hi ≤ hi := min_le_right _ _

theorem left_le_clamp (v : ℝ) {lo hi : ℝ} (h : lo ≤ hi) : lo ≤ clamp v lo hi :=
  le_min (le_max_right _ _) h

theorem clamp_eq_self {v lo hi : ℝ} (h1 : lo ≤ v) (h2 : v ≤ hi) : clamp v lo hi = v := by
  unfold clamp
  rw [max_eq_left h1, min_eq_left h2]

theorem clamp_mono {x y : ℝ} (lo hi : ℝ) (h : x ≤ y) : clamp x lo hi ≤ clamp y lo hi :=
  min_le_min (max_le_max h le_rfl) le_rfl

theorem le_round1 {x : ℝ} {n : ℤ} (h : (n : ℝ) / 10 ≤ x) : (n : ℝ) / 10 ≤ round1 x := by
  have h2 := le_jround (n := n) (x := x * 10) (by linarith)
  unfold round1
  linarith

theorem round1_le {x : ℝ} {n : ℤ} (h : x ≤ (n : ℝ) / 10) : round1 x ≤ (n : ℝ) / 10 := by
  have h2 := jround_le (n := n) (x := x * 10) (by linarith)
  unfold round1
  linarith

theorem round1_eq_self {x : ℝ} {n : ℤ} (h : x = (n : ℝ) / 10) : round1 x = x := by
  subst h
  unfold round1
  rw [show (n : ℝ) / 10 * 10 = (n : ℝ) by ring, jround_int]

theorem round1_idem (x : ℝ) : round1 (round1 x) = round1 x := by
  refine round1_eq_self (n := round (x * 10)) ?_
  unfold round1 jround
  norm_num

theorem round2_eq_self {x : ℝ} {n : ℤ} (h : x = (n : ℝ) / 100) : round2 x = x := by
  subst h
  unfold round2
  rw [show (n : ℝ) / 100 * 100 = (n : ℝ) by ring, jround_int]

theorem round1_eq {x : ℝ} {n : ℤ} (h1 : (n : ℝ) ≤ x * 10 + 1 / 2)
    (h2 : x * 10 + 1 / 2 < (n : ℝ) + 1) : round1 x = (n : ℝ) / 10 := by
  unfold round1
  rw [jround_eq h1 h2]

/-- Clamping an already-produced GFR value (always in `[3,160]`) into the
simulator's `[5,150]` window never crosses a staging threshold. -/
theorem getGFRCategory_clamp {g : ℝ} (_h1 : 3 ≤ g) (_h2 : g ≤ 160) :
    getGFRCategory (clamp g 5 150) = getGFRCategory g := by
  rcases le_or_lt 5 g with h5 | h5
  · rcases le_or_lt g 150 with h150 | h150
    · rw [clamp_eq_self h5 h150]
    · have hc : clamp g 5 150 = 150 := by
        unfold clamp
        rw [max_eq_left h5, min_eq_right (by linarith)]
      rw [hc]
      unfold getGFRCategory
      rw [if_pos (by norm_num), if_pos (by linarith)]
  · have hc : clamp g 5 150 = 5 := by
      unfold clamp
      rw [max_eq_right (by linarith), min_eq_left (by norm_num)]
    rw [hc]
    unfold getGFRCategory
    rw [if_neg (by norm_num), if_neg (by norm_num), if_neg (by norm_num),
      if_neg (by norm_num), if_neg (by norm_num), if_neg (by linarith),
      if_neg (by linarith), if_neg (by linarith), if_neg (by linarith),
      if_neg (by linarith)]

theorem getCKDStage_clamp {g : ℝ} (_h1 : 3 ≤ g) (_h2 : g ≤ 160) :
    getCKDStage (clamp g 5 150) = getCKDStage g := by
  rcases le_or_lt 5 g with h5 | h5
  · rcases le_or_lt g 150 with h150 | h150
    · rw [clamp_eq_self h5 h150]
    · have hc : clamp g 5 150 = 150 := by
        unfold clamp
        rw [max_eq_left h5, min_eq_right (by linarith)]
      rw [hc]
      unfold getCKDStage
      rw [if_pos (by norm_num), if_pos (by linarith)]
  · have hc : clamp g 5 150 = 5 := by
      unfold clamp
      rw [max_eq_right (by linarith), min_eq_left (by norm_num)]
    rw [hc]
    unfold getCKDStage
    rw [if_neg (by norm_num), if_neg (by norm_num), if_neg (by norm_num),
      if_neg (by norm_num), if_neg (by norm_num), if_neg (by linarith),
      if_neg (by linarith), if_neg (by linarith), if_neg (by linarith),
      if_neg (by linarith)]

/-- Rounding to one decimal keeps a value inside an interval whose ends are
themselves on the one-decimal grid. -/
theorem round1_clamp_mem (x : ℝ) {a b : ℝ} {m n : ℤ} (hm : (m : ℝ) / 10 = a)
    (hn : (n : ℝ) / 10 = b) (hab : a ≤ b) :
    a ≤ round1 (clamp x a b) ∧ round1 (clamp x a b) ≤ b := by
  constructor
  · rw [← hm]
    exact le_round1 (by rw [hm]; exact left_le_clamp x hab)
  · rw [← hn]
    exact round1_le (by rw [hn]; exact clamp_le_right x a b)

/-- `calculateGFR` always lands in `[3,160]`. -/
theorem calculateGFR_mem (age : ℝ) (gender : String) (creatinine weight : ℝ) :
    3 ≤ calculateGFR age gender creatinine weight ∧
      calculateGFR age gender creatinine weight ≤ 160 := by
  unfold calculateGFR
  exact round1_clamp_mem _ (m := 30) (by norm_num) (n := 1600) (by norm_num) (by norm_num)

/-! ### Projection lemmas for `simulateTreatment` -/

theorem simulate_gfr (b : KidneyMetrics) (p : PatientData) (ts : List Treatment)
    (adj : Adjustments) : (simulateTreatment b p ts adj).gfr =
      round1 (clamp (b.gfr + (netDeltas p ts adj).gfrDelta) 5 150) := rfl

/-- C9: for every baseline, patient, treatment list and adjustments, the
`gfr` field returned by `simulateTreatment` lies in the window `[5,150]`,
even when the baseline GFR lies in `[3,5)` or `(150,160]`. -/
theorem claim_C9_simulated_gfr_window (b : KidneyMetrics) (p : PatientData)
    (ts : List Treatment) (adj : Adjustments) :
    5 ≤ (simulateTreatment b p ts adj).gfr ∧ (simulateTreatment b p ts adj).gfr ≤ 150 := by
  rw [simulate_gfr]
  exact round1_clamp_mem _ (m := 50) (by norm_num) (n := 1500) (by norm_num) (by norm_num)

/-! ### Classifier claims -/

/-- If `name` misses the whole exact lexicon, the classifier's `find?` over
the lexicon returns `none`. -/
theorem find?_eq_none_of_lexiconMiss {name : String} (h : lexiconMiss name = true) :
    MEDICINE_CATEGORIES.find? (fun cd => cd.2.any (fun d => inclStr (lowerStr name) d)) =
      none := by
  rw [List.find?_eq_none]
  intro x hx
  have hall := (List.all_eq_true.mp h) x hx
  simp only [Bool.not_eq_true'] at hall
  simp [hall]

/-- C10: a medicine name whose lowered form contains `"ace"`, does not
contain `"acetate"`, and matches no exact-lexicon entry is classified as an
ACE inhibitor, and the simulator gives any treatment with that name the
ACE-inhibitor effect bundle. -/
theorem claim_C10_ace_heuristic (name : String)
    (hace : inclStr (lowerStr name) "ace" = true)
    (hacetate : inclStr (lowerStr name) "acetate" = false)
    (hmiss : lexiconMiss name = true) :
    getMedicineCategory name = some "ace" ∧
      ∀ t : Treatment, t.medicine = name →
        treatmentEffect t =
          { gfrDelta := 5 * min t.tablets 3 * 0.7, stressReduction := 10,
            ckdProgReduction := 8, cvRiskReduction := 6 } := by
  have hcat : getMedicineCategory name = some "ace" := by
    simp only [getMedicineCategory]
    rw [find?_eq_none_of_lexiconMiss hmiss]
    simp [hace, hacetate]
  refine ⟨hcat, fun t ht => ?_⟩
  unfold treatmentEffect
  rw [ht, hcat]
  rfl

/-- C10 witness: `"Acetaminophen"` is classified as an ACE inhibitor and the
concrete acetaminophen treatment receives the ACE effect bundle. -/
theorem claim_C10_ace_heuristic_witness :
    inclStr (lowerStr "Acetaminophen") "ace" = true ∧
      inclStr (lowerStr "Acetaminophen") "acetate" = false ∧
      lexiconMiss "Acetaminophen" = true ∧
      getMedicineCategory "Acetaminophen" = some "ace" ∧
      treatmentEffect tAcetaminophen =
        { gfrDelta := 5 * min tAcetaminophen.tablets 3 * 0.7,
          stressReduction := 10, ckdProgReduction := 8, cvRiskReduction := 6 } :=
  ⟨by decide, by decide, by decide,
    (claim_C10_ace_heuristic "Acetaminophen" (by decide) (by decide) (by decide)).1,
    (claim_C10_ace_heuristic "Acetaminophen" (by decide) (by decide) (by decide)).2
      tAcetaminophen rfl⟩

/-- C8 counterexample: `"acemetformin"` contains `"metformin"` and matches
no exact-lexicon entry, yet the classifier returns `"ace"`, not `"sglt2"`,
because the `"ace"` heuristic is checked first. -/
theorem claim_C8_counterexample :
    inclStr (lowerStr "acemetformin") "metformin" = true ∧
      lexiconMiss "acemetformin" = true ∧
      getMedicineCategory "acemetformin" = some "ace" ∧
      getMedicineCategory "acemetformin" ≠ some "sglt2" := by
  refine ⟨by decide, by decide, by decide, by decide⟩

/-- C8 (amended): a medicine name whose lowered form contains
`"metformin"`, matches no exact-lexicon entry, and is not captured by the
earlier `"ace"`/`"arb"`/`"diuretic"` heuristics is classified into the
SGLT2 bucket, and the simulator gives any treatment with that name the
SGLT2 effect bundle. -/
theorem claim_C8_metformin_sglt2 (name : String)
    (hmet : inclStr (lowerStr name) "metformin" = true)
    (hmiss : lexiconMiss name = true)
    (hace : (inclStr (lowerStr name) "ace" && !inclStr (lowerStr name) "acetate") = false)
    (harb : inclStr (lowerStr name) "arb" = false)
    (hdiur : inclStr (lowerStr name) "diuretic" = false) :
    getMedicineCategory name = some "sglt2" ∧
      ∀ t : Treatment, t.medicine = name →
        treatmentEffect t =
          { gfrDelta := 6, stressReduction := 8, ckdProgReduction := 15,
            cvRiskReduction := 10, stoneRiskReduction := 3 } := by
  have hcat : getMedicineCategory name = some "sglt2" := by
    simp only [getMedicineCategory]
    rw [find?_eq_none_of_lexiconMiss hmiss]
    simp [hace, harb, hdiur, hmet]
  refine ⟨hcat, fun t ht => ?_⟩
  unfold treatmentEffect
  rw [ht, hcat]
  rfl

/-! ### Interaction detection claims -/

theorem detect_nil : detectDrugInteractions [] = [] := rfl

theorem detect_cons (t : Treatment) (rest : List Treatment) :
    detectDrugInteractions (t :: rest) =
      (rest.map (pairInteractions t)).flatten ++ detectDrugInteractions rest := rfl

/-- Swapping the two treatments of a pair produces the same interactions up
to the canonical (unordered-pair) view, entry for entry. -/
theorem pairInteractions_canon_comm (a b : Treatment) :
    (pairInteractions a b).map canonInteraction =
      (pairInteractions b a).map canonInteraction := by
  unfold pairInteractions
  cases h1 : getMedicineCategory a.medicine with
  | none => cases h2 : getMedicineCategory b.medicine <;> rfl
  | some c1 =>
    cases h2 : getMedicineCategory b.medicine with
    | none => rfl
    | some c2 =>
      rw [List.map_filterMap, List.map_filterMap]
      apply List.filterMap_congr
      intro e _
      by_cases hp : (c1 = e.drug1 ∧ c2 = e.drug2) ∨ (c1 = e.drug2 ∧ c2 = e.drug1)
      · rw [if_pos hp, if_pos (by tauto)]
        simp [canonInteraction]
        exact Multiset.cons_swap _ _ _
      · rw [if_neg hp, if_neg (by tauto)]

/-- C6: permuting the treatment list permutes the detected interactions:
the multiset of interactions, with each substituted medicine-name pair
compared as an unordered pair, is invariant. -/
theorem claim_C6_detection_order_independent (ts ts' : List Treatment)
    (h : List.Perm ts ts') :
    List.Perm ((detectDrugInteractions ts).map canonInteraction)
      ((detectDrugInteractions ts').map canonInteraction) := by
  induction h with
  | nil => exact List.Perm.refl _
  | cons x h ih =>
    rw [detect_cons, detect_cons, List.map_append, List.map_append]
    exact List.Perm.append ((((h.map (pairInteractions x)).flatten).map canonInteraction)) ih
  | swap x y l =>
    rw [detect_cons, detect_cons, detect_cons, detect_cons]
    simp only [List.map_cons, List.flatten_cons, List.map_append, List.append_assoc]
    rw [pairInteractions_canon_comm y x]
    exact List.Perm.append_left _ (List.perm_append_comm_assoc _ _ _)
  | trans _ _ ih1 ih2 => exact ih1.trans ih2

/-- C6 witness: swapping a concrete ACE/ARB pair leaves the canonical
interaction multiset unchanged. -/
theorem claim_C6_detection_order_independent_witness :
    List.Perm [tLisinopril, tLosartan] [tLosartan, tLisinopril] ∧
      List.Perm ((detectDrugInteractions [tLisinopril, tLosartan]).map canonInteraction)
        ((detectDrugInteractions [tLosartan, tLisinopril]).map canonInteraction) :=
  ⟨List.Perm.swap tLosartan tLisinopril [],
    claim_C6_detection_order_independent _ _ (List.Perm.swap tLosartan tLisinopril [])⟩

/-- C8 (amended) witness: `"Metformin"` itself lands in the SGLT2 bucket
and the concrete metformin treatment receives the SGLT2 effect bundle. -/
theorem claim_C8_metformin_sglt2_witness :
    inclStr (lowerStr "Metformin") "metformin" = true ∧
      lexiconMiss "Metformin" = true ∧
      getMedicineCategory "Metformin" = some "sglt2" ∧
      treatmentEffect tMetformin =
        { gfrDelta := 6, stressReduction := 8,
          ckdProgReduction := 15, cvRiskReduction := 10, stoneRiskReduction := 3 } :=
  ⟨by decide, by decide,
    (claim_C8_metformin_sglt2 "Metformin" (by decide) (by decide) (by decide) (by decide)
      (by decide)).1,
    (claim_C8_metformin_sglt2 "Metformin" (by decide) (by decide) (by decide) (by decide)
      (by decide)).2 tMetformin rfl⟩

/-! ### CKD-EPI formula claims -/

/-- The fifth power of `(1/0.9) ^ (-1.2)` is the rational `0.9 ^ 6`. -/
theorem rpow_neg12_pow_five :
    (((1 : ℝ) / 0.9) ^ (-1.2 : ℝ)) ^ (5 : ℕ) = (531441 / 1000000 : ℝ) := by
  rw [← Real.rpow_natCast (((1 : ℝ) / 0.9) ^ (-1.2 : ℝ)) 5,
    ← Real.rpow_mul (by norm_num : (0 : ℝ) ≤ 1 / 0.9)]
  rw [show ((-1.2 : ℝ) * (5 : ℕ)) = ((-6 : ℤ) : ℝ) by norm_num, Real.rpow_intCast]
  norm_num

theorem rpow_neg12_bounds :
    (0.8810 : ℝ) ≤ ((1 : ℝ) / 0.9) ^ (-1.2 : ℝ) ∧
      ((1 : ℝ) / 0.9) ^ (-1.2 : ℝ) ≤ 0.8814 := by
  have hpos : (0 : ℝ) < ((1 : ℝ) / 0.9) ^ (-1.2 : ℝ) :=
    Real.rpow_pos_of_pos (by norm_num) _
  constructor
  · refine le_of_pow_le_pow_left₀ (n := 5) (by norm_num) hpos.le ?_
    rw [rpow_neg12_pow_five]
    norm_num
  · refine le_of_pow_le_pow_left₀ (n := 5) (by norm_num) (by norm_num) ?_
    rw [rpow_neg12_pow_five]
    norm_num

theorem rpow_9938_50_eq : ((0.9938 : ℝ) ^ (50 : ℝ)) = (4969 / 5000 : ℝ) ^ (50 : ℕ) := by
  rw [show ((50 : ℝ)) = ((50 : ℕ) : ℝ) by norm_num, Real.rpow_natCast]
  norm_num

/-- C3: `calculateGFR` computes exactly the CKD-EPI 2021 value worded by the
spec, and for age 50, male, serum creatinine 1.0 it returns 91.7 with
category G1 and CKD stage 1. -/
theorem claim_C3_ckd_epi_formula :
    (∀ (age : ℝ) (gender : String) (creatinine weight : ℝ), 0 < creatinine →
        calculateGFR age gender creatinine weight = gfrSpecFormula age gender creatinine) ∧
      calculateGFR 50 "male" 1 80 = 91.7 ∧
      getGFRCategory (calculateGFR 50 "male" 1 80) = "G1 - Normal or High" ∧
      getCKDStage (calculateGFR 50 "male" 1 80) = 1 := by
  have hval : calculateGFR 50 "male" 1 80 = 91.7 := by
    have hmf : ¬("male" : String) = "female" := by decide
    unfold calculateGFR
    simp only [if_neg hmf]
    rw [show min ((1 : ℝ) / 0.9) 1 = 1 from min_eq_right (by norm_num),
      show max ((1 : ℝ) / 0.9) 1 = (1 : ℝ) / 0.9 from max_eq_left (by norm_num),
      Real.one_rpow]
    obtain ⟨hya, hyb⟩ := rpow_neg12_bounds
    have hypos : (0 : ℝ) < ((1 : ℝ) / 0.9) ^ (-1.2 : ℝ) :=
      Real.rpow_pos_of_pos (by norm_num) _
    have hca : (0.7327 : ℝ) ≤ (0.9938 : ℝ) ^ (50 : ℝ) := by
      rw [rpow_9938_50_eq]
      norm_num
    have hcb : (0.9938 : ℝ) ^ (50 : ℝ) ≤ (0.7328 : ℝ) := by
      rw [rpow_9938_50_eq]
      norm_num
    have hlow : (0.8810 : ℝ) * 0.7327 ≤
        ((1 : ℝ) / 0.9) ^ (-1.2 : ℝ) * (0.9938 : ℝ) ^ (50 : ℝ) :=
      mul_le_mul hya hca (by norm_num) hypos.le
    have hhigh : ((1 : ℝ) / 0.9) ^ (-1.2 : ℝ) * (0.9938 : ℝ) ^ (50 : ℝ) ≤
        (0.8814 : ℝ) * 0.7328 :=
      mul_le_mul hyb hcb (le_trans (by norm_num) hca) (by norm_num)
    have hg3 : (3 : ℝ) ≤ 142 * 1 * ((1 : ℝ) / 0.9) ^ (-1.2 : ℝ) * (0.9938 : ℝ) ^ (50 : ℝ) := by
      nlinarith
    have hg160 : 142 * 1 * ((1 : ℝ) / 0.9) ^ (-1.2 : ℝ) * (0.9938 : ℝ) ^ (50 : ℝ) ≤ 160 := by
      nlinarith
    rw [clamp_eq_self hg3 hg160]
    rw [round1_eq (n := 917) (by push_cast; nlinarith) (by push_cast; nlinarith)]
    norm_num
  refine ⟨fun age gender cre w _ => rfl, hval, ?_, ?_⟩
  · rw [hval]
    unfold getGFRCategory
    rw [if_pos (by norm_num : (91.7 : ℝ) ≥ 90)]
  · rw [hval]
    unfold getCKDStage
    rw [if_pos (by norm_num : (91.7 : ℝ) ≥ 90)]

/-- C3 witness: the formula equality instantiated at the concrete scenario
with creatinine `1 > 0`. -/
theorem claim_C3_ckd_epi_formula_witness :
    (0 : ℝ) < 1 ∧ calculateGFR 50 "male" 1 80 = gfrSpecFormula 50 "male" 1 :=
  ⟨by norm_num, claim_C3_ckd_epi_formula.1 50 "male" 1 80 (by norm_num)⟩

/-- `round1` is monotone. -/
theorem round1_mono {x y : ℝ} (h : x ≤ y) : round1 x ≤ round1 y := by
  have := jround_mono (by linarith : x * 10 ≤ y * 10)
  unfold round1
  linarith

/-- The unclamped CKD-EPI body is antitone in creatinine (for positive
creatinine, positive kappa and nonpositive exponent). -/
theorem gfr_body_anti {κ α E : ℝ} (hκ : 0 < κ) (hα : α ≤ 0) (hE : 0 ≤ E)
    {c1 c2 : ℝ} (h0 : 0 < c1) (h12 : c1 ≤ c2) :
    142 * min (c2 / κ) 1 ^ α * max (c2 / κ) 1 ^ (-1.2 : ℝ) * E ≤
      142 * min (c1 / κ) 1 ^ α * max (c1 / κ) 1 ^ (-1.2 : ℝ) * E := by
  have hr1 : 0 < c1 / κ := div_pos h0 hκ
  have hr12 : c1 / κ ≤ c2 / κ := by gcongr
  have hmin_pos : 0 < min (c1 / κ) 1 := lt_min hr1 one_pos
  have hmin_le : min (c1 / κ) 1 ≤ min (c2 / κ) 1 := min_le_min hr12 le_rfl
  have hmax_pos : (0 : ℝ) < max (c1 / κ) 1 := lt_of_lt_of_le one_pos (le_max_right _ _)
  have hmax_le : max (c1 / κ) 1 ≤ max (c2 / κ) 1 := max_le_max hr12 le_rfl
  have hA : min (c2 / κ) 1 ^ α ≤ min (c1 / κ) 1 ^ α :=
    Real.rpow_le_rpow_of_nonpos hmin_pos hmin_le hα
  have hB : max (c2 / κ) 1 ^ (-1.2 : ℝ) ≤ max (c1 / κ) 1 ^ (-1.2 : ℝ) :=
    Real.rpow_le_rpow_of_nonpos hmax_pos hmax_le (by norm_num)
  have hA2 : (0 : ℝ) ≤ min (c2 / κ) 1 ^ α :=
    Real.rpow_nonneg (le_min (div_nonneg (by linarith) hκ.le) (by norm_num)) _
  have hB2 : (0 : ℝ) ≤ max (c2 / κ) 1 ^ (-1.2 : ℝ) :=
    Real.rpow_nonneg (le_trans (by norm_num) (le_max_right _ _)) _
  have hA1 : (0 : ℝ) ≤ min (c1 / κ) 1 ^ α :=
    Real.rpow_nonneg (le_min (div_nonneg h0.le hκ.le) (by norm_num)) _
  have hAB : min (c2 / κ) 1 ^ α * max (c2 / κ) 1 ^ (-1.2 : ℝ) ≤
      min (c1 / κ) 1 ^ α * max (c1 / κ) 1 ^ (-1.2 : ℝ) :=
    mul_le_mul hA hB hB2 hA1
  nlinarith

/-- C7: for fixed age, gender and weight, `calculateGFR` is non-increasing
in serum creatinine. -/
theorem claim_C7_gfr_antitone_in_creatinine (age : ℝ) (gender : String) (weight : ℝ)
    (c1 c2 : ℝ) (h0 : 0 < c1) (h12 : c1 ≤ c2) :
    calculateGFR age gender c2 weight ≤ calculateGFR age gender c1 weight := by
  unfold calculateGFR
  have hE : (0 : ℝ) ≤ (0.9938 : ℝ) ^ age := Real.rpow_nonneg (by norm_num) _
  by_cases hg : gender = "female"
  · simp only [if_pos hg]
    apply round1_mono
    apply clamp_mono
    have := gfr_body_anti (κ := 0.7) (α := -0.241) (by norm_num) (by norm_num) hE h0 h12
    nlinarith
  · simp only [if_neg hg]
    apply round1_mono
    apply clamp_mono
    exact gfr_body_anti (κ := 0.9) (α := -0.302) (by norm_num) (by norm_num) hE h0 h12

/-- C7 witness: doubling creatinine from 1.0 to 2.0 cannot raise the GFR. -/
theorem claim_C7_gfr_antitone_in_creatinine_witness :
    (0 : ℝ) < 1 ∧ (1 : ℝ) ≤ 2 ∧
      calculateGFR 50 "male" 2 80 ≤ calculateGFR 50 "male" 1 80 :=
  ⟨by norm_num, by norm_num,
    claim_C7_gfr_antitone_in_creatinine 50 "male" 80 1 2 (by norm_num) (by norm_num)⟩

/-! ### Treatment-ranker claims -/

theorem singlesOf_perm_sublistsLen {α : Type} (l : List α) :
    List.Perm (singlesOf l) (List.sublistsLen 1 l) := by
  rw [List.sublistsLen_one]
  exact ((List.reverse_perm l).map _).symm

theorem pairsOf_perm_sublistsLen {α : Type} (l : List α) :
    List.Perm (pairsOf l) (List.sublistsLen 2 l) := by
  induction l with
  | nil => simp [pairsOf, List.sublistsLen_of_length_lt]
  | cons x xs ih =>
    rw [show pairsOf (x :: xs) = xs.map (fun y => [x, y]) ++ pairsOf xs from rfl,
      List.sublistsLen_succ_cons]
    refine List.Perm.trans (List.Perm.append ?_ ih) List.perm_append_comm
    have h1 := (singlesOf_perm_sublistsLen xs).map (fun p => x :: p)
    simpa [singlesOf, List.map_map, Function.comp] using h1

theorem triplesOf_perm_sublistsLen {α : Type} (l : List α) :
    List.Perm (triplesOf l) (List.sublistsLen 3 l) := by
  induction l with
  | nil => simp [triplesOf, List.sublistsLen_of_length_lt]
  | cons x xs ih =>
    rw [show triplesOf (x :: xs) = (pairsOf xs).map (fun p => x :: p) ++ triplesOf xs from rfl,
      List.sublistsLen_succ_cons]
    exact List.Perm.trans
      (List.Perm.append ((pairsOf_perm_sublistsLen xs).map _) ih) List.perm_append_comm

theorem pairsOf_short {α : Type} {l : List α} (h : l.length < 2) : pairsOf l = [] := by
  match l, h with
  | [], _ => rfl
  | [x], _ => rfl

theorem triplesOf_short {α : Type} {l : List α} (h : l.length < 3) : triplesOf l = [] := by
  match l, h with
  | [], _ => rfl
  | [x], _ => rfl
  | [x, y], _ => rfl

/-- The generated combination list is exactly the size-1, size-2 and size-3
sublists of the pool, as a multiset. -/
theorem combosOf_perm {α : Type} (ts : List α) :
    List.Perm (combosOf ts)
      (List.sublistsLen 1 ts ++ List.sublistsLen 2 ts ++ List.sublistsLen 3 ts) := by
  unfold combosOf
  refine List.Perm.append (List.Perm.append (singlesOf_perm_sublistsLen ts) ?_) ?_
  · by_cases h2 : ts.length ≥ 2
    · rw [if_pos h2]
      exact pairsOf_perm_sublistsLen ts
    · rw [if_neg h2, List.sublistsLen_of_length_lt (by omega)]
  · by_cases h3 : ts.length ≥ 3
    · rw [if_pos h3]
      exact triplesOf_perm_sublistsLen ts
    · rw [if_neg h3, List.sublistsLen_of_length_lt (by omega)]

theorem rankLE_trans (a b c : TreatmentRanking) (h1 : rankLE a b) (h2 : rankLE b c) :
    rankLE a c := by
  simp only [rankLE, decide_eq_true_eq] at h1 h2 ⊢
  linarith

theorem rankLE_total (a b : TreatmentRanking) : rankLE a b || rankLE b a := by
  simp only [rankLE, Bool.or_eq_true, decide_eq_true_eq]
  exact le_total _ _

/-- C4: the ranker returns `[]` on an empty pool; otherwise it evaluates
exactly the size-1/2/3 subsets of the pool (never size 4), each simulated
with the patient's own unchanged lifestyle values, and returns the stable
descending-by-score sort of those evaluations truncated to at most 10
entries. -/
theorem claim_C4_ranker (b : KidneyMetrics) (p : PatientData) :
    rankTreatmentCombinations b p [] = [] ∧
      ∀ pool : List Treatment,
        List.Perm (combosOf pool)
          (List.sublistsLen 1 pool ++ List.sublistsLen 2 pool ++ List.sublistsLen 3 pool) ∧
        (∀ c ∈ combosOf pool, c.Sublist pool ∧
          (c.length = 1 ∨ c.length = 2 ∨ c.length = 3)) ∧
        rankTreatmentCombinations b p pool =
          (((combosOf pool).map (scoreCombination b p)).mergeSort rankLE).take 10 ∧
        (rankTreatmentCombinations b p pool).length ≤ 10 ∧
        List.Sorted (fun x y : TreatmentRanking => y.score ≤ x.score)
          (rankTreatmentCombinations b p pool) ∧
        (∀ r ∈ rankTreatmentCombinations b p pool,
          ∃ c ∈ combosOf pool, r = scoreCombination b p c) ∧
        (∀ r1 r2 : TreatmentRanking, r1.score = r2.score →
          List.Sublist [r1, r2] ((combosOf pool).map (scoreCombination b p)) →
          List.Sublist [r1, r2]
            (((combosOf pool).map (scoreCombination b p)).mergeSort rankLE)) := by
  refine ⟨rfl, fun pool => ?_⟩
  have hperm := combosOf_perm pool
  have heq : rankTreatmentCombinations b p pool =
      (((combosOf pool).map (scoreCombination b p)).mergeSort rankLE).take 10 := by
    unfold rankTreatmentCombinations
    by_cases h : pool.length = 0
    · rw [if_pos h]
      have hnil : pool = [] := List.length_eq_zero.mp h
      subst hnil
      simp [combosOf, singlesOf, pairsOf, triplesOf]
    · rw [if_neg h]
  have hsorted : List.Sorted (fun x y : TreatmentRanking => y.score ≤ x.score)
      (rankTreatmentCombinations b p pool) := by
    rw [heq]
    have hms := @List.sorted_mergeSort TreatmentRanking rankLE rankLE_trans rankLE_total
      ((combosOf pool).map (scoreCombination b p))
    have hms2 : List.Pairwise (fun x y : TreatmentRanking => y.score ≤ x.score)
        (((combosOf pool).map (scoreCombination b p)).mergeSort rankLE) :=
      hms.imp (fun h => by simpa [rankLE] using h)
    exact hms2.sublist (List.take_sublist _ _)
  refine ⟨hperm, ?_, heq, ?_, hsorted, ?_, ?_⟩
  · intro c hc
    have hmem := hperm.subset hc
    simp only [List.mem_append] at hmem
    rcases hmem with (h | h) | h
    · exact ⟨(List.mem_sublistsLen.mp h).1, Or.inl (List.mem_sublistsLen.mp h).2⟩
    · exact ⟨(List.mem_sublistsLen.mp h).1, Or.inr (Or.inl (List.mem_sublistsLen.mp h).2)⟩
    · exact ⟨(List.mem_sublistsLen.mp h).1, Or.inr (Or.inr (List.mem_sublistsLen.mp h).2)⟩
  · rw [heq]
    exact List.length_take_le _ _
  · intro r hr
    rw [heq] at hr
    have hr2 : r ∈ ((combosOf pool).map (scoreCombination b p)).mergeSort rankLE :=
      (List.take_sublist _ _).subset hr
    rw [List.mem_mergeSort] at hr2
    obtain ⟨c, hc, hrc⟩ := List.mem_map.mp hr2
    exact ⟨c, hc, hrc.symm⟩
  · intro r1 r2 hscore hsub
    refine List.pair_sublist_mergeSort rankLE_trans rankLE_total ?_ hsub
    simp only [rankLE, decide_eq_true_eq, hscore]
    exact le_refl _

/-- C4 witness: the empty pool yields no rankings, and a concrete two-drug
pool yields at most 10. -/
theorem claim_C4_ranker_witness :
    rankTreatmentCombinations (calculateBaselineMetrics basePatient) basePatient [] = [] ∧
      (rankTreatmentCombinations (calculateBaselineMetrics basePatient) basePatient
        [tLisinopril, tLosartan]).length ≤ 10 :=
  ⟨(claim_C4_ranker (calculateBaselineMetrics basePatient) basePatient).1,
    ((claim_C4_ranker (calculateBaselineMetrics basePatient) basePatient).2
      [tLisinopril, tLosartan]).2.2.2.1⟩

/-! ### Time-projection claims -/

theorem predict_gfr (m : KidneyMetrics) (d : ℝ) :
    (predictFutureMetrics m d).gfr =
      round1 (m.gfr + (m.efficiency - 40) * 0.08 * (1 - Real.exp (-(d / 30 / 6))) * 2) := rfl

theorem jround_fix {x : ℝ} {n : ℤ} (h1 : (n : ℝ) ≤ x + 1 / 2)
    (h2 : x + 1 / 2 < (n : ℝ) + 1) (h3 : (n : ℝ) = x) : jround x = x := by
  rw [jround_eq h1 h2, h3]

/-- C5 (amended): every field of `predictFutureMetrics` other than the moved
scores (gfr, efficiency, stress, stone risk, CKD-progression risk, CV risk,
overall health, glomerular/tubular/vascular heatmap) and the recomputed
`gfrCategory`/`ckdStage` is carried through unchanged; and a zero-day
projection is the identity on snapshots that are fixed points of the
projector's roundings and clamps. -/
theorem claim_C5_predict_frame :
    (∀ (m : KidneyMetrics) (d : ℝ),
      (predictFutureMetrics m d).creatinine = m.creatinine ∧
      (predictFutureMetrics m d).uricAcid = m.uricAcid ∧
      (predictFutureMetrics m d).bun = m.bun ∧
      (predictFutureMetrics m d).bunCreatinineRatio = m.bunCreatinineRatio ∧
      (predictFutureMetrics m d).akirisk = m.akirisk ∧
      (predictFutureMetrics m d).infectionRisk = m.infectionRisk ∧
      (predictFutureMetrics m d).kidneyAge = m.kidneyAge ∧
      (predictFutureMetrics m d).filtrationRate = m.filtrationRate ∧
      (predictFutureMetrics m d).tubularReabsorption = m.tubularReabsorption ∧
      (predictFutureMetrics m d).electrolyteBalance = m.electrolyteBalance ∧
      (predictFutureMetrics m d).acidBaseBalance = m.acidBaseBalance ∧
      (predictFutureMetrics m d).mineralBoneScore = m.mineralBoneScore ∧
      (predictFutureMetrics m d).anemiaScore = m.anemiaScore ∧
      (predictFutureMetrics m d).inflammationScore = m.inflammationScore ∧
      (predictFutureMetrics m d).proteinuriaLevel = m.proteinuriaLevel ∧
      (predictFutureMetrics m d).albuminuriaCategory = m.albuminuriaCategory ∧
      (predictFutureMetrics m d).kidneyPerfusionIndex = m.kidneyPerfusionIndex ∧
      (predictFutureMetrics m d).nephronHealth = m.nephronHealth ∧
      (predictFutureMetrics m d).interstitialHealth = m.interstitialHealth ∧
      (predictFutureMetrics m d).vascularHealth = m.vascularHealth ∧
      (predictFutureMetrics m d).riskHeatmap.interstitial = m.riskHeatmap.interstitial ∧
      (predictFutureMetrics m d).riskHeatmap.collecting = m.riskHeatmap.collecting ∧
      (predictFutureMetrics m d).riskHeatmap.cortex = m.riskHeatmap.cortex ∧
      (predictFutureMetrics m d).riskHeatmap.medulla = m.riskHeatmap.medulla) ∧
    (∀ m : KidneyMetrics,
      round1 m.gfr = m.gfr →
      m.gfrCategory = getGFRCategory m.gfr →
      m.ckdStage = getCKDStage m.gfr →
      5 ≤ m.efficiency → m.efficiency ≤ 100 → jround m.efficiency = m.efficiency →
      0 ≤ m.stressIndex → jround m.stressIndex = m.stressIndex →
      0 ≤ m.stoneRisk → jround m.stoneRisk = m.stoneRisk →
      0 ≤ m.ckdProgressionRisk → jround m.ckdProgressionRisk = m.ckdProgressionRisk →
      0 ≤ m.cardiovascularRisk → jround m.cardiovascularRisk = m.cardiovascularRisk →
      0 ≤ m.overallHealthScore → m.overallHealthScore ≤ 100 →
      jround m.overallHealthScore = m.overallHealthScore →
      0 ≤ m.riskHeatmap.glomerular → m.riskHeatmap.glomerular ≤ 100 →
      0 ≤ m.riskHeatmap.tubular → m.riskHeatmap.tubular ≤ 100 →
      0 ≤ m.riskHeatmap.vascular → m.riskHeatmap.vascular ≤ 100 →
      predictFutureMetrics m 0 = m) := by
  constructor
  · intro m d
    exact ⟨rfl, rfl, rfl, rfl, rfl, rfl, rfl, rfl, rfl, rfl, rfl, rfl, rfl, rfl, rfl, rfl,
      rfl, rfl, rfl, rfl, rfl, rfl, rfl, rfl⟩
  · intro m hgfr hcat hstage heff1 heff2 heffr hstress hstressr hstone hstoner hckdp hckdpr
      hcv hcvr hohs1 hohs2 hohsr hg1 hg2 ht1 ht2 hv1 hv2
    unfold predictFutureMetrics
    simp only [zero_div, neg_zero, Real.exp_zero, sub_self, zero_mul, mul_zero, add_zero,
      sub_zero]
    rw [hgfr, ← hcat, ← hstage, clamp_eq_self heff1 heff2, heffr,
      max_eq_left hstress, hstressr, max_eq_left hstone, hstoner,
      max_eq_left hckdp, hckdpr, max_eq_left hcv, hcvr,
      hohsr, clamp_eq_self hohs1 hohs2,
      clamp_eq_self hg1 hg2, clamp_eq_self ht1 ht2, clamp_eq_self hv1 hv2]

/-- C5 counterexample: projecting the off-grid snapshot zero days ahead
re-rounds its `gfr` from 0.05 to 0.1, so the result is not the input. -/
theorem claim_C5_counterexample :
    offGridMetrics.gfr = 0.05 ∧ (predictFutureMetrics offGridMetrics 0).gfr = 0.1 ∧
      predictFutureMetrics offGridMetrics 0 ≠ offGridMetrics := by
  have h1 : offGridMetrics.gfr = 0.05 := rfl
  have h2 : (predictFutureMetrics offGridMetrics 0).gfr = 0.1 := by
    rw [predict_gfr]
    have he : offGridMetrics.gfr + (offGridMetrics.efficiency - 40) * 0.08 *
        (1 - Real.exp (-((0 : ℝ) / 30 / 6))) * 2 = 0.05 := by
      show (0.05 : ℝ) + ((50 : ℝ) - 40) * 0.08 * (1 - Real.exp (-((0 : ℝ) / 30 / 6))) * 2 = 0.05
      norm_num
    rw [he, round1_eq (n := 1) (by norm_num) (by norm_num)]
    norm_num
  refine ⟨h1, h2, fun he => ?_⟩
  have := congrArg KidneyMetrics.gfr he
  rw [h1, h2] at this
  norm_num at this

/-- C5 witness: the zero-day projection of the fixed-point snapshot is the
identity, and a 7-day projection leaves the creatinine field untouched. -/
theorem claim_C5_predict_frame_witness :
    (predictFutureMetrics niceMetrics 7).creatinine = niceMetrics.creatinine ∧
      predictFutureMetrics niceMetrics 0 = niceMetrics :=
  ⟨(claim_C5_predict_frame.1 niceMetrics 7).1,
    claim_C5_predict_frame.2 niceMetrics
      (round1_eq_self (n := 900) (by norm_num [niceMetrics, offGridMetrics]))
      (by unfold getGFRCategory
          rw [if_pos (by norm_num [niceMetrics, offGridMetrics] : niceMetrics.gfr ≥ 90)]
          norm_num [niceMetrics, offGridMetrics])
      (by unfold getCKDStage
          rw [if_pos (by norm_num [niceMetrics, offGridMetrics] : niceMetrics.gfr ≥ 90)]
          norm_num [niceMetrics, offGridMetrics])
      (by norm_num [niceMetrics, offGridMetrics]) (by norm_num [niceMetrics, offGridMetrics])
      (jround_fix (n := 50) (by norm_num [niceMetrics, offGridMetrics])
        (by norm_num [niceMetrics, offGridMetrics]) (by norm_num [niceMetrics, offGridMetrics]))
      (by norm_num [niceMetrics, offGridMetrics])
      (jround_fix (n := 10) (by norm_num [niceMetrics, offGridMetrics])
        (by norm_num [niceMetrics, offGridMetrics]) (by norm_num [niceMetrics, offGridMetrics]))
      (by norm_num [niceMetrics, offGridMetrics])
      (jround_fix (n := 10) (by norm_num [niceMetrics, offGridMetrics])
        (by norm_num [niceMetrics, offGridMetrics]) (by norm_num [niceMetrics, offGridMetrics]))
      (by norm_num [niceMetrics, offGridMetrics])
      (jround_fix (n := 10) (by norm_num [niceMetrics, offGridMetrics])
        (by norm_num [niceMetrics, offGridMetrics]) (by norm_num [niceMetrics, offGridMetrics]))
      (by norm_num [niceMetrics, offGridMetrics])
      (jround_fix (n := 10) (by norm_num [niceMetrics, offGridMetrics])
        (by norm_num [niceMetrics, offGridMetrics]) (by norm_num [niceMetrics, offGridMetrics]))
      (by norm_num [niceMetrics, offGridMetrics]) (by norm_num [niceMetrics, offGridMetrics])
      (jround_fix (n := 70) (by norm_num [niceMetrics, offGridMetrics])
        (by norm_num [niceMetrics, offGridMetrics]) (by norm_num [niceMetrics, offGridMetrics]))
      (by norm_num [niceMetrics, offGridMetrics]) (by norm_num [niceMetrics, offGridMetrics])
      (by norm_num [niceMetrics, offGridMetrics]) (by norm_num [niceMetrics, offGridMetrics])
      (by norm_num [niceMetrics, offGridMetrics]) (by norm_num [niceMetrics, offGridMetrics])⟩

/-! ### Projection lemmas for the simulator and the baseline calculator -/

theorem simulate_gfrCategory (b : KidneyMetrics) (p : PatientData) (ts : List Treatment)
    (adj : Adjustments) : (simulateTreatment b p ts adj).gfrCategory =
      getGFRCategory (clamp (b.gfr + (netDeltas p ts adj).gfrDelta) 5 150) := rfl

theorem simulate_ckdStage (b : KidneyMetrics) (p : PatientData) (ts : List Treatment)
    (adj : Adjustments) : (simulateTreatment b p ts adj).ckdStage =
      getCKDStage (clamp (b.gfr + (netDeltas p ts adj).gfrDelta) 5 150) := rfl

theorem simulate_creatinine (b : KidneyMetrics) (p : PatientData) (ts : List Treatment)
    (adj : Adjustments) : (simulateTreatment b p ts adj).creatinine =
      round2 (max (b.creatinine + (netDeltas p ts adj).creatinineDelta) 0.3) := rfl

theorem simulate_uricAcid (b : KidneyMetrics) (p : PatientData) (ts : List Treatment)
    (adj : Adjustments) : (simulateTreatment b p ts adj).uricAcid =
      round1 (max (b.uricAcid + (netDeltas p ts adj).uricAcidDelta) 1) := rfl

theorem simulate_bun (b : KidneyMetrics) (p : PatientData) (ts : List Treatment)
    (adj : Adjustments) : (simulateTreatment b p ts adj).bun =
      round1 (b.bun * (max (b.creatinine + (netDeltas p ts adj).creatinineDelta) 0.3 /
        b.creatinine)) := rfl

theorem simulate_bunCreatinineRatio (b : KidneyMetrics) (p : PatientData)
    (ts : List Treatment) (adj : Adjustments) :
    (simulateTreatment b p ts adj).bunCreatinineRatio =
      round1 (b.bun * (max (b.creatinine + (netDeltas p ts adj).creatinineDelta) 0.3 /
        b.creatinine) / max (b.creatinine + (netDeltas p ts adj).creatinineDelta) 0.3) := rfl

theorem simulate_stoneRisk (b : KidneyMetrics) (p : PatientData) (ts : List Treatment)
    (adj : Adjustments) : (simulateTreatment b p ts adj).stoneRisk =
      jround (max (b.stoneRisk - (netDeltas p ts adj).stoneRiskReduction) 0) := rfl

theorem simulate_stressIndex (b : KidneyMetrics) (p : PatientData) (ts : List Treatment)
    (adj : Adjustments) : (simulateTreatment b p ts adj).stressIndex =
      jround (max (b.stressIndex - (netDeltas p ts adj).stressReduction) 0) := rfl

theorem simulate_ckdProgressionRisk (b : KidneyMetrics) (p : PatientData)
    (ts : List Treatment) (adj : Adjustments) :
    (simulateTreatment b p ts adj).ckdProgressionRisk =
      jround (max (b.ckdProgressionRisk - (netDeltas p ts adj).ckdProgReduction) 0) := rfl

theorem simulate_cardiovascularRisk (b : KidneyMetrics) (p : PatientData)
    (ts : List Treatment) (adj : Adjustments) :
    (simulateTreatment b p ts adj).cardiovascularRisk =
      jround (max (b.cardiovascularRisk - (netDeltas p ts adj).cvRiskReduction) 0) := rfl

theorem simulate_akirisk (b : KidneyMetrics) (p : PatientData) (ts : List Treatment)
    (adj : Adjustments) : (simulateTreatment b p ts adj).akirisk =
      jround (max (b.akirisk - (netDeltas p ts adj).stressReduction * 0.3) 0) := rfl

theorem simulate_infectionRisk (b : KidneyMetrics) (p : PatientData) (ts : List Treatment)
    (adj : Adjustments) : (simulateTreatment b p ts adj).infectionRisk =
      jround (max (b.infectionRisk - (netDeltas p ts adj).stressReduction * 0.1) 0) := rfl

theorem simulate_efficiency (b : KidneyMetrics) (p : PatientData) (ts : List Treatment)
    (adj : Adjustments) : (simulateTreatment b p ts adj).efficiency =
      jround (clamp (clamp (b.gfr + (netDeltas p ts adj).gfrDelta) 5 150 / 120 * 100)
        5 100) := rfl

theorem simulate_filtrationRate (b : KidneyMetrics) (p : PatientData) (ts : List Treatment)
    (adj : Adjustments) : (simulateTreatment b p ts adj).filtrationRate =
      jround (clamp (b.gfr + (netDeltas p ts adj).gfrDelta) 5 150 * 1.44) := rfl

theorem simulate_electrolyteBalance (b : KidneyMetrics) (p : PatientData)
    (ts : List Treatment) (adj : Adjustments) :
    (simulateTreatment b p ts adj).electrolyteBalance =
      clamp (b.electrolyteBalance + jround ((netDeltas p ts adj).stressReduction * 0.3))
        0 100 := rfl

theorem simulate_acidBaseBalance (b : KidneyMetrics) (p : PatientData)
    (ts : List Treatment) (adj : Adjustments) :
    (simulateTreatment b p ts adj).acidBaseBalance =
      clamp (b.acidBaseBalance + jround ((netDeltas p ts adj).stressReduction * 0.2))
        0 100 := rfl

theorem simulate_mineralBoneScore (b : KidneyMetrics) (p : PatientData)
    (ts : List Treatment) (adj : Adjustments) :
    (simulateTreatment b p ts adj).mineralBoneScore =
      clamp (b.mineralBoneScore + jround (netDeltas p ts adj).mineralBoneImprovement)
        0 100 := rfl

theorem simulate_anemiaScore (b : KidneyMetrics) (p : PatientData) (ts : List Treatment)
    (adj : Adjustments) : (simulateTreatment b p ts adj).anemiaScore =
      clamp (b.anemiaScore + jround (netDeltas p ts adj).anemiaImprovement) 0 100 := rfl

theorem simulate_inflammationScore (b : KidneyMetrics) (p : PatientData)
    (ts : List Treatment) (adj : Adjustments) :
    (simulateTreatment b p ts adj).inflammationScore =
      clamp (b.inflammationScore + jround (netDeltas p ts adj).inflammationReduction)
        0 100 := rfl

theorem simulate_proteinuriaLevel (b : KidneyMetrics) (p : PatientData)
    (ts : List Treatment) (adj : Adjustments) :
    (simulateTreatment b p ts adj).proteinuriaLevel =
      max (b.proteinuriaLevel * (1 - (netDeltas p ts adj).ckdProgReduction * 0.01)) 0 := rfl

theorem simulate_albuminuriaCategory (b : KidneyMetrics) (p : PatientData)
    (ts : List Treatment) (adj : Adjustments) :
    (simulateTreatment b p ts adj).albuminuriaCategory = b.albuminuriaCategory := rfl

theorem simulate_kidneyPerfusionIndex (b : KidneyMetrics) (p : PatientData)
    (ts : List Treatment) (adj : Adjustments) :
    (simulateTreatment b p ts adj).kidneyPerfusionIndex =
      clamp (b.kidneyPerfusionIndex + jround ((netDeltas p ts adj).stressReduction * 0.2))
        0 100 := rfl

theorem simulate_nephronHealth (b : KidneyMetrics) (p : PatientData) (ts : List Treatment)
    (adj : Adjustments) : (simulateTreatment b p ts adj).nephronHealth =
      clamp (jround (clamp (clamp (b.gfr + (netDeltas p ts adj).gfrDelta) 5 150 / 120 * 100)
        5 100 * 0.7 +
        (100 - max (b.stressIndex - (netDeltas p ts adj).stressReduction) 0) * 0.3))
        0 100 := rfl

theorem simulate_interstitialHealth (b : KidneyMetrics) (p : PatientData)
    (ts : List Treatment) (adj : Adjustments) :
    (simulateTreatment b p ts adj).interstitialHealth =
      clamp (b.interstitialHealth + jround ((netDeltas p ts adj).stressReduction * 0.2))
        0 100 := rfl

theorem simulate_vascularHealth (b : KidneyMetrics) (p : PatientData) (ts : List Treatment)
    (adj : Adjustments) : (simulateTreatment b p ts adj).vascularHealth =
      clamp (b.vascularHealth + jround ((netDeltas p ts adj).cvRiskReduction * 0.3))
        0 100 := rfl

theorem simulate_heatmap_glomerular (b : KidneyMetrics) (p : PatientData)
    (ts : List Treatment) (adj : Adjustments) :
    (simulateTreatment b p ts adj).riskHeatmap.glomerular =
      clamp (100 - (100 - clamp (clamp (b.gfr + (netDeltas p ts adj).gfrDelta) 5 150 /
        120 * 100) 5 100) * 1.2) 0 100 := rfl

theorem simulate_heatmap_tubular (b : KidneyMetrics) (p : PatientData)
    (ts : List Treatment) (adj : Adjustments) :
    (simulateTreatment b p ts adj).riskHeatmap.tubular =
      clamp (100 - max (b.stressIndex - (netDeltas p ts adj).stressReduction) 0 * 0.8)
        0 100 := rfl

theorem simulate_heatmap_vascular (b : KidneyMetrics) (p : PatientData)
    (ts : List Treatment) (adj : Adjustments) :
    (simulateTreatment b p ts adj).riskHeatmap.vascular =
      clamp (b.vascularHealth + (netDeltas p ts adj).cvRiskReduction * 0.3) 0 100 := rfl

theorem simulate_heatmap_interstitial (b : KidneyMetrics) (p : PatientData)
    (ts : List Treatment) (adj : Adjustments) :
    (simulateTreatment b p ts adj).riskHeatmap.interstitial =
      clamp (b.interstitialHealth + (netDeltas p ts adj).stressReduction * 0.2) 0 100 := rfl

theorem simulate_heatmap_collecting (b : KidneyMetrics) (p : PatientData)
    (ts : List Treatment) (adj : Adjustments) :
    (simulateTreatment b p ts adj).riskHeatmap.collecting =
      clamp (90 - max (b.stoneRisk - (netDeltas p ts adj).stoneRiskReduction) 0 * 0.3)
        0 100 := rfl

theorem simulate_heatmap_medulla (b : KidneyMetrics) (p : PatientData)
    (ts : List Treatment) (adj : Adjustments) :
    (simulateTreatment b p ts adj).riskHeatmap.medulla =
      clamp (85 - max (b.stressIndex - (netDeltas p ts adj).stressReduction) 0 * 0.3 -
        max (b.stoneRisk - (netDeltas p ts adj).stoneRiskReduction) 0 * 0.2) 0 100 := rfl

theorem baseline_gfr (p : PatientData) : (calculateBaselineMetrics p).gfr = gfrOf p := rfl

theorem baseline_gfrCategory (p : PatientData) :
    (calculateBaselineMetrics p).gfrCategory = getGFRCategory (gfrOf p) := rfl

theorem baseline_ckdStage (p : PatientData) :
    (calculateBaselineMetrics p).ckdStage = getCKDStage (gfrOf p) := rfl

theorem baseline_creatinine (p : PatientData) :
    (calculateBaselineMetrics p).creatinine = p.serumCreatinine := rfl

theorem baseline_uricAcid (p : PatientData) :
    (calculateBaselineMetrics p).uricAcid = p.uricAcid := rfl

theorem baseline_bun (p : PatientData) : (calculateBaselineMetrics p).bun = p.bun := rfl

theorem baseline_bunCreatinineRatio (p : PatientData) :
    (calculateBaselineMetrics p).bunCreatinineRatio =
      round1 (p.bun / p.serumCreatinine) := rfl

theorem baseline_stoneRisk (p : PatientData) :
    (calculateBaselineMetrics p).stoneRisk = jround (stoneRiskVal p) := rfl

theorem baseline_stressIndex (p : PatientData) :
    (calculateBaselineMetrics p).stressIndex = jround (stressIndexVal p) := rfl

theorem baseline_ckdProgressionRisk (p : PatientData) :
    (calculateBaselineMetrics p).ckdProgressionRisk = jround (ckdProgressionVal p) := rfl

theorem baseline_cardiovascularRisk (p : PatientData) :
    (calculateBaselineMetrics p).cardiovascularRisk = jround (cvRiskVal p) := rfl

theorem baseline_akirisk (p : PatientData) :
    (calculateBaselineMetrics p).akirisk = jround (akiriskVal p) := rfl

theorem baseline_infectionRisk (p : PatientData) :
    (calculateBaselineMetrics p).infectionRisk = jround (infectionRiskVal p) := rfl

theorem baseline_efficiency (p : PatientData) :
    (calculateBaselineMetrics p).efficiency = jround (efficiencyVal p) := rfl

theorem baseline_electrolyteBalance (p : PatientData) :
    (calculateBaselineMetrics p).electrolyteBalance =
      jround (clamp (electrolyteBalanceRaw p) 0 100) := rfl

theorem baseline_acidBaseBalance (p : PatientData) :
    (calculateBaselineMetrics p).acidBaseBalance =
      jround (clamp (85 - stressIndexVal p * 0.15) 0 100) := rfl

theorem baseline_mineralBoneScore (p : PatientData) :
    (calculateBaselineMetrics p).mineralBoneScore = jround (mineralBoneVal p) := rfl

theorem baseline_anemiaScore (p : PatientData) :
    (calculateBaselineMetrics p).anemiaScore = jround (anemiaVal p) := rfl

theorem baseline_inflammationScore (p : PatientData) :
    (calculateBaselineMetrics p).inflammationScore = jround (inflammationVal p) := rfl

theorem baseline_proteinuriaLevel (p : PatientData) :
    (calculateBaselineMetrics p).proteinuriaLevel = p.urineProtein := rfl

theorem baseline_albuminuriaCategory (p : PatientData) :
    (calculateBaselineMetrics p).albuminuriaCategory =
      getAlbuminuriaCategory p.urineAlbumin := rfl

theorem baseline_kidneyPerfusionIndex (p : PatientData) :
    (calculateBaselineMetrics p).kidneyPerfusionIndex =
      jround (kidneyPerfusionVal p) := rfl

theorem baseline_nephronHealth (p : PatientData) :
    (calculateBaselineMetrics p).nephronHealth = nephronHealthVal p := rfl

theorem baseline_interstitialHealth (p : PatientData) :
    (calculateBaselineMetrics p).interstitialHealth = jround (interstitialVal p) := rfl

theorem baseline_vascularHealth (p : PatientData) :
    (calculateBaselineMetrics p).vascularHealth = jround (vascularVal p) := rfl

theorem baseline_overallHealthScore (p : PatientData) :
    (calculateBaselineMetrics p).overallHealthScore =
      clamp (jround (overallRaw p)) 0 100 := rfl

/-! ### No-op simulation claims -/

/-- With adjustments equal to the patient's own lifestyle values, the
lifestyle section leaves the accumulators untouched. -/
theorem lifestyleDeltas_own (p : PatientData) (d : Deltas) :
    lifestyleDeltas p (ownAdjustments p) d = d := by
  unfold lifestyleDeltas ownAdjustments
  simp

/-- An empty treatment list with own-lifestyle adjustments accumulates
nothing. -/
theorem netDeltas_nil_own (p : PatientData) :
    netDeltas p [] (ownAdjustments p) = {} := by
  unfold netDeltas
  dsimp only
  rw [lifestyleDeltas_own]
  rfl

/-- Projecting a GFR already produced by `calculateGFR` through `round1`
changes nothing. -/
theorem calculateGFR_round1_fix (age : ℝ) (gender : String) (cre w : ℝ) :
    round1 (calculateGFR age gender cre w) = calculateGFR age gender cre w := by
  unfold calculateGFR
  dsimp only
  exact round1_idem _

/-- Clamping into `[5,100]` agrees with the baseline's `max`/`min` form. -/
theorem clamp_five_hundred (x : ℝ) : clamp x 5 100 = max (min x 100) 5 := by
  unfold clamp
  rcases le_total x 5 with h5 | h5
  · rw [max_eq_right h5, min_eq_left (show (5 : ℝ) ≤ 100 by norm_num),
      min_eq_left (le_trans h5 (by norm_num)), max_eq_right h5]
  · rcases le_total x 100 with h100 | h100
    · rw [max_eq_left h5, min_eq_left h100, max_eq_left h5]
    · rw [max_eq_left (le_trans (by norm_num) h100), min_eq_right h100,
        max_eq_left (show (5 : ℝ) ≤ 100 by norm_num)]

/-- The simulator's efficiency pipeline agrees with the baseline's
`min`/`max` form for every GFR in `[3,160]`. -/
theorem eff_clamp_eq {g : ℝ} (_h3 : 3 ≤ g) (_h160 : g ≤ 160) :
    clamp (clamp g 5 150 / 120 * 100) 5 100 = max (min (g / 120 * 100) 100) 5 := by
  rcases lt_or_le g 5 with h5 | h5
  · have hc : clamp g 5 150 = 5 := by
      unfold clamp
      rw [max_eq_right h5.le, min_eq_left (by norm_num)]
    rw [hc]
    have h1 : clamp ((5 : ℝ) / 120 * 100) 5 100 = 5 := by
      unfold clamp
      rw [max_eq_right (by norm_num), min_eq_left (by norm_num)]
    rw [h1, min_eq_left (by nlinarith), max_eq_right (by nlinarith)]
  · rcases le_or_lt g 150 with h150 | h150
    · rw [clamp_eq_self h5 h150, clamp_five_hundred]
    · have hc : clamp g 5 150 = 150 := by
        unfold clamp
        rw [max_eq_left (by linarith), min_eq_right (by linarith)]
      rw [hc]
      have h1 : clamp ((150 : ℝ) / 120 * 100) 5 100 = 100 := by
        unfold clamp
        rw [max_eq_left (by norm_num), min_eq_right (by norm_num)]
      rw [h1, min_eq_right (by nlinarith), max_eq_left (by norm_num)]

/-- C2 counterexample: for a patient with serum creatinine 0.2, the no-op
simulation floors the creatinine at 0.3, so its output differs from the
baseline. -/
theorem claim_C2_counterexample :
    (calculateBaselineMetrics lowCreatininePatient).creatinine = 0.2 ∧
      (simulateTreatment (calculateBaselineMetrics lowCreatininePatient)
        lowCreatininePatient [] (ownAdjustments lowCreatininePatient)).creatinine = 0.3 ∧
      simulateTreatment (calculateBaselineMetrics lowCreatininePatient)
        lowCreatininePatient [] (ownAdjustments lowCreatininePatient) ≠
        calculateBaselineMetrics lowCreatininePatient := by
  have h1 : (calculateBaselineMetrics lowCreatininePatient).creatinine = 0.2 := rfl
  have h2 : (simulateTreatment (calculateBaselineMetrics lowCreatininePatient)
      lowCreatininePatient [] (ownAdjustments lowCreatininePatient)).creatinine = 0.3 := by
    rw [simulate_creatinine, netDeltas_nil_own, h1]
    show round2 (max ((0.2 : ℝ) + 0) 0.3) = 0.3
    rw [add_zero, max_eq_right (by norm_num), round2_eq_self (n := 30) (by norm_num)]
  refine ⟨h1, h2, fun he => ?_⟩
  have hc := congrArg KidneyMetrics.creatinine he
  rw [h1, h2] at hc
  norm_num at hc

/-- C2 (amended): the no-op simulation (empty treatment list, adjustments
equal to the patient's own lifestyle values) reproduces the baseline on
every field the simulator neither re-clamps nor re-rounds differently;
`gfr` and `filtrationRate` are reproduced exactly when the baseline GFR
already lies in the simulator's `[5,150]` window, and creatinine, uric acid
and BUN are reproduced exactly when the patient's values are already at the
simulator's rounding precision and above its floors. -/
theorem claim_C2_noop_simulation (p : PatientData)
    (hcre : 0 < p.serumCreatinine) (hprot : 0 ≤ p.urineProtein) :
    ∀ b s : KidneyMetrics, b = calculateBaselineMetrics p →
      s = simulateTreatment b p [] (ownAdjustments p) →
      (s.gfrCategory = b.gfrCategory ∧
       s.ckdStage = b.ckdStage ∧
       s.bunCreatinineRatio = b.bunCreatinineRatio ∧
       s.stoneRisk = b.stoneRisk ∧
       s.stressIndex = b.stressIndex ∧
       s.ckdProgressionRisk = b.ckdProgressionRisk ∧
       s.cardiovascularRisk = b.cardiovascularRisk ∧
       s.akirisk = b.akirisk ∧
       s.infectionRisk = b.infectionRisk ∧
       s.efficiency = b.efficiency ∧
       s.electrolyteBalance = b.electrolyteBalance ∧
       s.acidBaseBalance = b.acidBaseBalance ∧
       s.mineralBoneScore = b.mineralBoneScore ∧
       s.anemiaScore = b.anemiaScore ∧
       s.inflammationScore = b.inflammationScore ∧
       s.proteinuriaLevel = b.proteinuriaLevel ∧
       s.albuminuriaCategory = b.albuminuriaCategory ∧
       s.kidneyPerfusionIndex = b.kidneyPerfusionIndex ∧
       s.interstitialHealth = b.interstitialHealth ∧
       s.vascularHealth = b.vascularHealth ∧
       s.riskHeatmap.glomerular = b.riskHeatmap.glomerular ∧
       (5 ≤ b.gfr → b.gfr ≤ 150 → s.gfr = b.gfr) ∧
       (5 ≤ b.gfr → b.gfr ≤ 150 → s.filtrationRate = b.filtrationRate) ∧
       (0.3 ≤ p.serumCreatinine → round2 p.serumCreatinine = p.serumCreatinine →
         s.creatinine = b.creatinine) ∧
       (1 ≤ p.uricAcid → round1 p.uricAcid = p.uricAcid → s.uricAcid = b.uricAcid) ∧
       (0.3 ≤ p.serumCreatinine → round1 p.bun = p.bun → s.bun = b.bun)) := by
  intro b s hb hs
  subst hs
  subst hb
  have hnd := netDeltas_nil_own p
  have hb3 : 3 ≤ (calculateBaselineMetrics p).gfr := by
    rw [baseline_gfr]
    exact (calculateGFR_mem p.age p.gender p.serumCreatinine p.weight).1
  have hb160 : (calculateBaselineMetrics p).gfr ≤ 160 := by
    rw [baseline_gfr]
    exact (calculateGFR_mem p.age p.gender p.serumCreatinine p.weight).2
  have hcl : clamp ((calculateBaselineMetrics p).gfr + ({} : Deltas).gfrDelta) 5 150 =
      clamp (calculateBaselineMetrics p).gfr 5 150 := by
    show clamp ((calculateBaselineMetrics p).gfr + 0) 5 150 = _
    rw [add_zero]
  have hjc0 : ∀ x : ℝ, 0 ≤ jround (clamp x 0 100) :=
    fun x => jround_nonneg (left_le_clamp x (by norm_num))
  have hjc100 : ∀ x : ℝ, jround (clamp x 0 100) ≤ 100 :=
    fun x => jround_le_hundred (clamp_le_right x 0 100)
  have hjj : ∀ x : ℝ, jround (max (jround (clamp x 0 100)) 0) = jround (clamp x 0 100) :=
    fun x => by rw [max_eq_left (hjc0 x), jround_jround]
  have hj0 : jround (0 : ℝ) = 0 := by
    rw [show ((0 : ℝ)) = ((0 : ℤ) : ℝ) by norm_num, jround_int]
  have hcid : ∀ x : ℝ, clamp (jround (clamp x 0 100) + jround ((0 : ℝ))) 0 100 =
      jround (clamp x 0 100) := fun x => by
    rw [hj0, add_zero]
    exact clamp_eq_self (hjc0 x) (hjc100 x)
  refine ⟨?_, ?_, ?_, ?_, ?_, ?_, ?_, ?_, ?_, ?_, ?_, ?_, ?_, ?_, ?_, ?_, ?_, ?_, ?_, ?_,
    ?_, ?_, ?_, ?_, ?_, ?_⟩
  · rw [simulate_gfrCategory, hnd, hcl, getGFRCategory_clamp hb3 hb160,
      baseline_gfrCategory, baseline_gfr]
  · rw [simulate_ckdStage, hnd, hcl, getCKDStage_clamp hb3 hb160,
      baseline_ckdStage, baseline_gfr]
  · rw [simulate_bunCreatinineRatio, hnd, baseline_bunCreatinineRatio,
      baseline_creatinine, baseline_bun]
    show round1 (p.bun * (max (p.serumCreatinine + 0) 0.3 / p.serumCreatinine) /
      max (p.serumCreatinine + 0) 0.3) = round1 (p.bun / p.serumCreatinine)
    rw [add_zero]
    have h1 : p.serumCreatinine ≠ 0 := ne_of_gt hcre
    have h2 : max p.serumCreatinine 0.3 ≠ 0 :=
      ne_of_gt (lt_of_lt_of_le (by norm_num) (le_max_right _ _))
    congr 1
    field_simp
    ring
  · rw [simulate_stoneRisk, hnd, baseline_stoneRisk]
    show jround (max (jround (stoneRiskVal p) - 0) 0) = jround (stoneRiskVal p)
    rw [sub_zero]
    exact hjj _
  · rw [simulate_stressIndex, hnd, baseline_stressIndex]
    show jround (max (jround (stressIndexVal p) - 0) 0) = jround (stressIndexVal p)
    rw [sub_zero]
    exact hjj _
  · rw [simulate_ckdProgressionRisk, hnd, baseline_ckdProgressionRisk]
    show jround (max (jround (ckdProgressionVal p) - 0) 0) = jround (ckdProgressionVal p)
    rw [sub_zero]
    exact hjj _
  · rw [simulate_cardiovascularRisk, hnd, baseline_cardiovascularRisk]
    show jround (max (jround (cvRiskVal p) - 0) 0) = jround (cvRiskVal p)
    rw [sub_zero]
    exact hjj _
  · rw [simulate_akirisk, hnd, baseline_akirisk]
    show jround (max (jround (akiriskVal p) - 0 * 0.3) 0) = jround (akiriskVal p)
    rw [zero_mul, sub_zero]
    exact hjj _
  · rw [simulate_infectionRisk, hnd, baseline_infectionRisk]
    show jround (max (jround (infectionRiskVal p) - 0 * 0.1) 0) = jround (infectionRiskVal p)
    rw [zero_mul, sub_zero]
    exact hjj _
  · rw [simulate_efficiency, hnd, hcl, baseline_efficiency]
    congr 1
    rw [eff_clamp_eq hb3 hb160, baseline_gfr]
    rfl
  · rw [simulate_electrolyteBalance, hnd, baseline_electrolyteBalance]
    show clamp (jround (clamp (electrolyteBalanceRaw p) 0 100) + jround ((0 : ℝ) * 0.3))
        0 100 = jround (clamp (electrolyteBalanceRaw p) 0 100)
    rw [zero_mul]
    exact hcid _
  · rw [simulate_acidBaseBalance, hnd, baseline_acidBaseBalance]
    show clamp (jround (clamp (85 - stressIndexVal p * 0.15) 0 100) + jround ((0 : ℝ) * 0.2))
        0 100 = jround (clamp (85 - stressIndexVal p * 0.15) 0 100)
    rw [zero_mul]
    exact hcid _
  · rw [simulate_mineralBoneScore, hnd, baseline_mineralBoneScore]
    show clamp (jround (clamp (mineralBoneRaw p) 0 100) + jround ((0 : ℝ))) 0 100 =
      jround (clamp (mineralBoneRaw p) 0 100)
    exact hcid _
  · rw [simulate_anemiaScore, hnd, baseline_anemiaScore]
    show clamp (jround (clamp (anemiaRaw p) 0 100) + jround ((0 : ℝ))) 0 100 =
      jround (clamp (anemiaRaw p) 0 100)
    exact hcid _
  · rw [simulate_inflammationScore, hnd, baseline_inflammationScore]
    show clamp (jround (clamp (inflammationRaw p) 0 100) + jround ((0 : ℝ))) 0 100 =
      jround (clamp (inflammationRaw p) 0 100)
    exact hcid _
  · rw [simulate_proteinuriaLevel, hnd, baseline_proteinuriaLevel]
    show max (p.urineProtein * (1 - 0 * 0.01)) 0 = p.urineProtein
    rw [zero_mul, sub_zero, mul_one, max_eq_left hprot]
  · exact simulate_albuminuriaCategory _ p [] (ownAdjustments p)
  · rw [simulate_kidneyPerfusionIndex, hnd, baseline_kidneyPerfusionIndex]
    show clamp (jround (clamp (kidneyPerfusionRaw p) 0 100) + jround ((0 : ℝ) * 0.2)) 0 100 =
      jround (clamp (kidneyPerfusionRaw p) 0 100)
    rw [zero_mul]
    exact hcid _
  · rw [simulate_interstitialHealth, hnd, baseline_interstitialHealth]
    show clamp (jround (clamp (interstitialRaw p) 0 100) + jround ((0 : ℝ) * 0.2)) 0 100 =
      jround (clamp (interstitialRaw p) 0 100)
    rw [zero_mul]
    exact hcid _
  · rw [simulate_vascularHealth, hnd, baseline_vascularHealth]
    show clamp (jround (clamp (vascularRaw p) 0 100) + jround ((0 : ℝ) * 0.3)) 0 100 =
      jround (clamp (vascularRaw p) 0 100)
    rw [zero_mul]
    exact hcid _
  · rw [simulate_heatmap_glomerular, hnd, hcl, eff_clamp_eq hb3 hb160, baseline_gfr]
    rfl
  · intro h5 h150
    rw [simulate_gfr, hnd]
    show round1 (clamp ((calculateBaselineMetrics p).gfr + 0) 5 150) =
      (calculateBaselineMetrics p).gfr
    rw [add_zero, clamp_eq_self h5 h150, baseline_gfr]
    unfold gfrOf
    exact calculateGFR_round1_fix _ _ _ _
  · intro h5 h150
    rw [simulate_filtrationRate, hnd]
    show jround (clamp ((calculateBaselineMetrics p).gfr + 0) 5 150 * 1.44) =
      (calculateBaselineMetrics p).filtrationRate
    rw [add_zero, clamp_eq_self h5 h150]
    rfl
  · intro hfloor hgrid
    rw [simulate_creatinine, hnd, baseline_creatinine]
    show round2 (max (p.serumCreatinine + 0) 0.3) = p.serumCreatinine
    rw [add_zero, max_eq_left hfloor, hgrid]
  · intro hfloor hgrid
    rw [simulate_uricAcid, hnd, baseline_uricAcid]
    show round1 (max (p.uricAcid + 0) 1) = p.uricAcid
    rw [add_zero, max_eq_left hfloor, hgrid]
  · intro hfloor hgrid
    rw [simulate_bun, hnd, baseline_bun, baseline_creatinine]
    show round1 (p.bun * (max (p.serumCreatinine + 0) 0.3 / p.serumCreatinine)) = p.bun
    rw [add_zero, max_eq_left hfloor, div_self (ne_of_gt hcre), mul_one, hgrid]

/-- C2 witness: at the concrete unremarkable patient the no-op simulation
reproduces the baseline stone-risk and GFR category. -/
theorem claim_C2_noop_simulation_witness :
    (0 : ℝ) < basePatient.serumCreatinine ∧ (0 : ℝ) ≤ basePatient.urineProtein ∧
      (simulateTreatment (calculateBaselineMetrics basePatient) basePatient []
        (ownAdjustments basePatient)).stoneRisk =
        (calculateBaselineMetrics basePatient).stoneRisk ∧
      (simulateTreatment (calculateBaselineMetrics basePatient) basePatient []
        (ownAdjustments basePatient)).gfrCategory =
        (calculateBaselineMetrics basePatient).gfrCategory :=
  ⟨by norm_num [basePatient], by norm_num [basePatient],
    (claim_C2_noop_simulation basePatient (by norm_num [basePatient])
      (by norm_num [basePatient]) _ _ rfl rfl).2.2.2.1,
    (claim_C2_noop_simulation basePatient (by norm_num [basePatient])
      (by norm_num [basePatient]) _ _ rfl rfl).1⟩

/-! ### Range lemmas for the simulator accumulators (claim C1) -/

/-- Every per-category effect bundle has nonnegative stone-risk, CKD and CV
reductions. -/
theorem effectBundle_reductions_nonneg (cat : Option String) (dm : ℝ) (lower : List Char) :
    0 ≤ (effectBundle cat dm lower).stoneRiskReduction ∧
      0 ≤ (effectBundle cat dm lower).ckdProgReduction ∧
      0 ≤ (effectBundle cat dm lower).cvRiskReduction := by
  unfold effectBundle
  by_cases h1 : cat = some "ace"
  · rw [if_pos h1]
    exact ⟨by norm_num, by norm_num, by norm_num⟩
  rw [if_neg h1]
  by_cases h2 : cat = some "arb"
  · rw [if_pos h2]
    exact ⟨by norm_num, by norm_num, by norm_num⟩
  rw [if_neg h2]
  by_cases h3 : cat = some "sglt2"
  · rw [if_pos h3]
    exact ⟨by norm_num, by norm_num, by norm_num⟩
  rw [if_neg h3]
  by_cases h4 : cat = some "xanthine_oxidase"
  · rw [if_pos h4]
    exact ⟨by norm_num, by norm_num, by norm_num⟩
  rw [if_neg h4]
  by_cases h5 : cat = some "ccb"
  · rw [if_pos h5]
    exact ⟨by norm_num, by norm_num, by norm_num⟩
  rw [if_neg h5]
  by_cases h6 : cat = some "diuretic"
  · rw [if_pos h6]
    exact ⟨by norm_num, by norm_num, by norm_num⟩
  rw [if_neg h6]
  by_cases h7 : cat = some "beta_blocker"
  · rw [if_pos h7]
    exact ⟨by norm_num, by norm_num, by norm_num⟩
  rw [if_neg h7]
  by_cases h8 : cat = some "statin"
  · rw [if_pos h8]
    exact ⟨by norm_num, by norm_num, by norm_num⟩
  rw [if_neg h8]
  by_cases h9 : cat = some "phosphate_binder"
  · rw [if_pos h9]
    exact ⟨by norm_num, by norm_num, by norm_num⟩
  rw [if_neg h9]
  by_cases h10 : cat = some "esa"
  · rw [if_pos h10]
    exact ⟨by norm_num, by norm_num, by norm_num⟩
  rw [if_neg h10]
  by_cases h11 : cat = some "iron"
  · rw [if_pos h11]
    exact ⟨by norm_num, by norm_num, by norm_num⟩
  rw [if_neg h11]
  by_cases h12 : cat = some "glp1"
  · rw [if_pos h12]
    exact ⟨by norm_num, by norm_num, by norm_num⟩
  rw [if_neg h12]
  dsimp only
  by_cases hm : inclStr lower "metformin" = true
  · rw [if_pos hm]
    by_cases hs : inclStr lower "sodium bicarbonate" = true
    · rw [if_pos hs]
      exact ⟨by norm_num, by norm_num, by norm_num⟩
    · rw [if_neg hs]
      exact ⟨by norm_num, by norm_num, by norm_num⟩
  · rw [if_neg hm]
    by_cases hs : inclStr lower "sodium bicarbonate" = true
    · rw [if_pos hs]
      exact ⟨by norm_num, by norm_num, by norm_num⟩
    · rw [if_neg hs]
      exact ⟨by norm_num, by norm_num, by norm_num⟩

theorem add_reductions (a b : Deltas) :
    (a.add b).stoneRiskReduction = a.stoneRiskReduction + b.stoneRiskReduction ∧
      (a.add b).ckdProgReduction = a.ckdProgReduction + b.ckdProgReduction ∧
      (a.add b).cvRiskReduction = a.cvRiskReduction + b.cvRiskReduction :=
  ⟨rfl, rfl, rfl⟩

theorem medsFold_reductions_nonneg (ts : List Treatment) (d : Deltas)
    (h : 0 ≤ d.stoneRiskReduction ∧ 0 ≤ d.ckdProgReduction ∧ 0 ≤ d.cvRiskReduction) :
    0 ≤ (ts.foldl (fun d t => d.add (treatmentEffect t)) d).stoneRiskReduction ∧
      0 ≤ (ts.foldl (fun d t => d.add (treatmentEffect t)) d).ckdProgReduction ∧
      0 ≤ (ts.foldl (fun d t => d.add (treatmentEffect t)) d).cvRiskReduction := by
  induction ts generalizing d with
  | nil => exact h
  | cons t ts ih =>
    rw [List.foldl_cons]
    refine ih _ ?_
    obtain ⟨h1, h2, h3⟩ := h
    obtain ⟨e1, e2, e3⟩ := effectBundle_reductions_nonneg (getMedicineCategory t.medicine)
      (min t.tablets 3) (lowerStr t.medicine)
    obtain ⟨a1, a2, a3⟩ := add_reductions d (treatmentEffect t)
    unfold treatmentEffect at a1 a2 a3 ⊢
    refine ⟨?_, ?_, ?_⟩
    · rw [a1]
      linarith
    · rw [a2]
      linarith
    · rw [a3]
      linarith

theorem lifestyleDeltas_reductions_nonneg (p : PatientData) (adj : Adjustments) (d : Deltas)
    (h : 0 ≤ d.stoneRiskReduction ∧ 0 ≤ d.ckdProgReduction ∧ 0 ≤ d.cvRiskReduction) :
    0 ≤ (lifestyleDeltas p adj d).stoneRiskReduction ∧
      0 ≤ (lifestyleDeltas p adj d).ckdProgReduction ∧
      0 ≤ (lifestyleDeltas p adj d).cvRiskReduction := by
  obtain ⟨h1, h2, h3⟩ := h
  unfold lifestyleDeltas
  dsimp only
  split_ifs <;> refine ⟨?_, ?_, ?_⟩ <;> dsimp only <;> linarith

theorem interactionPenalty_reductions (d : Deltas) (i : DrugInteraction) :
    (interactionPenalty d i).stoneRiskReduction = d.stoneRiskReduction ∧
      (interactionPenalty d i).ckdProgReduction = d.ckdProgReduction ∧
      (interactionPenalty d i).cvRiskReduction = d.cvRiskReduction := by
  unfold interactionPenalty
  split_ifs <;> exact ⟨rfl, rfl, rfl⟩

theorem penaltyFold_reductions (l : List DrugInteraction) (d : Deltas) :
    (l.foldl interactionPenalty d).stoneRiskReduction = d.stoneRiskReduction ∧
      (l.foldl interactionPenalty d).ckdProgReduction = d.ckdProgReduction ∧
      (l.foldl interactionPenalty d).cvRiskReduction = d.cvRiskReduction := by
  induction l generalizing d with
  | nil => exact ⟨rfl, rfl, rfl⟩
  | cons i l ih =>
    rw [List.foldl_cons]
    obtain ⟨p1, p2, p3⟩ := interactionPenalty_reductions d i
    obtain ⟨q1, q2, q3⟩ := ih (interactionPenalty d i)
    exact ⟨q1.trans p1, q2.trans p2, q3.trans p3⟩

/-- The net stone-risk, CKD-progression and CV-risk reductions are always
nonnegative (the interaction penalties touch only the GFR delta and the
stress reduction). -/
theorem netDeltas_reductions_nonneg (p : PatientData) (ts : List Treatment)
    (adj : Adjustments) :
    0 ≤ (netDeltas p ts adj).stoneRiskReduction ∧
      0 ≤ (netDeltas p ts adj).ckdProgReduction ∧
      0 ≤ (netDeltas p ts adj).cvRiskReduction := by
  unfold netDeltas
  dsimp only
  obtain ⟨q1, q2, q3⟩ := penaltyFold_reductions (detectDrugInteractions ts)
    (lifestyleDeltas p adj (ts.foldl (fun d t => d.add (treatmentEffect t)) {}))
  rw [q1, q2, q3]
  exact lifestyleDeltas_reductions_nonneg p adj _
    (medsFold_reductions_nonneg ts {} ⟨le_refl 0, le_refl 0, le_refl 0⟩)

/-! ### Claim C1: field ranges and the GFR range violation -/

theorem predict_efficiency (m : KidneyMetrics) (d : ℝ) :
    (predictFutureMetrics m d).efficiency =
      jround (clamp (m.efficiency + (m.efficiency - 40) * 0.08 *
        (1 - Real.exp (-(d / 30 / 6)))) 5 100) := rfl

theorem predict_stressIndex (m : KidneyMetrics) (d : ℝ) :
    (predictFutureMetrics m d).stressIndex =
      jround (max (m.stressIndex - (1 - Real.exp (-(d / 30 / 6))) * 5) 0) := rfl

theorem predict_stoneRisk (m : KidneyMetrics) (d : ℝ) :
    (predictFutureMetrics m d).stoneRisk =
      jround (max (m.stoneRisk - (1 - Real.exp (-(d / 30 / 6))) * 8) 0) := rfl

theorem predict_ckdProgressionRisk (m : KidneyMetrics) (d : ℝ) :
    (predictFutureMetrics m d).ckdProgressionRisk =
      jround (max (m.ckdProgressionRisk - (1 - Real.exp (-(d / 30 / 6))) * 8 * 0.6) 0) := rfl

theorem predict_cardiovascularRisk (m : KidneyMetrics) (d : ℝ) :
    (predictFutureMetrics m d).cardiovascularRisk =
      jround (max (m.cardiovascularRisk - (1 - Real.exp (-(d / 30 / 6))) * 8 * 0.4) 0) := rfl

theorem predict_overallHealthScore (m : KidneyMetrics) (d : ℝ) :
    (predictFutureMetrics m d).overallHealthScore =
      clamp (jround (m.overallHealthScore + (1 - Real.exp (-(d / 30 / 6))) * 5)) 0 100 := rfl

theorem predict_heatmap_glomerular (m : KidneyMetrics) (d : ℝ) :
    (predictFutureMetrics m d).riskHeatmap.glomerular =
      clamp (m.riskHeatmap.glomerular + (1 - Real.exp (-(d / 30 / 6))) * 3) 0 100 := rfl

theorem predict_heatmap_tubular (m : KidneyMetrics) (d : ℝ) :
    (predictFutureMetrics m d).riskHeatmap.tubular =
      clamp (m.riskHeatmap.tubular + (1 - Real.exp (-(d / 30 / 6))) * 3) 0 100 := rfl

theorem predict_heatmap_vascular (m : KidneyMetrics) (d : ℝ) :
    (predictFutureMetrics m d).riskHeatmap.vascular =
      clamp (m.riskHeatmap.vascular + (1 - Real.exp (-(d / 30 / 6))) * 2) 0 100 := rfl

/-- The extreme-creatinine patient's baseline GFR clamps to 3. -/
theorem extremePatient_baseline_gfr : (calculateBaselineMetrics extremePatient).gfr = 3 := by
  rw [baseline_gfr]
  show calculateGFR 50 "male" 1000 80 = 3
  have hmf : ¬("male" : String) = "female" := by decide
  unfold calculateGFR
  simp only [if_neg hmf]
  rw [show min ((1000 : ℝ) / 0.9) 1 = 1 from min_eq_right (by norm_num),
    show max ((1000 : ℝ) / 0.9) 1 = (1000 : ℝ) / 0.9 from max_eq_left (by norm_num),
    Real.one_rpow]
  have hy1 : ((1000 : ℝ) / 0.9) ^ (-1.2 : ℝ) ≤ ((1000 : ℝ) / 0.9) ^ (-1 : ℝ) :=
    Real.rpow_le_rpow_of_exponent_le (by norm_num) (by norm_num)
  have hy2 : ((1000 : ℝ) / 0.9) ^ (-1 : ℝ) = (9 : ℝ) / 10000 := by
    rw [Real.rpow_neg_one]
    norm_num
  have hypos : (0 : ℝ) ≤ ((1000 : ℝ) / 0.9) ^ (-1.2 : ℝ) := Real.rpow_nonneg (by norm_num) _
  have hc1 : (0.9938 : ℝ) ^ (50 : ℝ) ≤ 1 :=
    Real.rpow_le_one (by norm_num) (by norm_num) (by norm_num)
  have hcpos : (0 : ℝ) ≤ (0.9938 : ℝ) ^ (50 : ℝ) := Real.rpow_nonneg (by norm_num) _
  have hraw : 142 * 1 * (((1000 : ℝ) / 0.9) ^ (-1.2 : ℝ)) * ((0.9938 : ℝ) ^ (50 : ℝ)) ≤ 3 := by
    nlinarith
  have hraw0 : 0 ≤ 142 * 1 * (((1000 : ℝ) / 0.9) ^ (-1.2 : ℝ)) * ((0.9938 : ℝ) ^ (50 : ℝ)) :=
    mul_nonneg (mul_nonneg (by norm_num) hypos) hcpos
  have hclamp : clamp (142 * 1 * (((1000 : ℝ) / 0.9) ^ (-1.2 : ℝ)) *
      ((0.9938 : ℝ) ^ (50 : ℝ))) 3 160 = 3 := by
    unfold clamp
    rw [max_eq_right hraw, min_eq_left (by norm_num)]
  rw [hclamp, round1_eq_self (n := 30) (by norm_num)]

/-- C1 counterexample: starting from the extreme-creatinine patient
(baseline GFR 3), the no-op simulation clamps the GFR to 5 with efficiency
5, and projecting that snapshot 365 days ahead pushes the GFR below 3 —
outside the `[3,160]` range the claim asserts. -/
theorem claim_C1_counterexample :
    (calculateBaselineMetrics extremePatient).gfr = 3 ∧
      (simulateTreatment (calculateBaselineMetrics extremePatient) extremePatient []
        (ownAdjustments extremePatient)).gfr = 5 ∧
      (predictFutureMetrics (simulateTreatment (calculateBaselineMetrics extremePatient)
        extremePatient [] (ownAdjustments extremePatient)) 365).gfr < 3 := by
  have hbg := extremePatient_baseline_gfr
  have hcl35 : clamp (3 : ℝ) 5 150 = 5 := by
    unfold clamp
    rw [max_eq_right (by norm_num), min_eq_left (by norm_num)]
  have hsg : (simulateTreatment (calculateBaselineMetrics extremePatient) extremePatient []
      (ownAdjustments extremePatient)).gfr = 5 := by
    rw [simulate_gfr, netDeltas_nil_own, hbg]
    show round1 (clamp ((3 : ℝ) + 0) 5 150) = 5
    rw [add_zero, hcl35, round1_eq_self (n := 50) (by norm_num)]
  have hse : (simulateTreatment (calculateBaselineMetrics extremePatient) extremePatient []
      (ownAdjustments extremePatient)).efficiency = 5 := by
    rw [simulate_efficiency, netDeltas_nil_own, hbg]
    show jround (clamp (clamp ((3 : ℝ) + 0) 5 150 / 120 * 100) 5 100) = 5
    rw [add_zero, hcl35]
    have h2 : clamp ((5 : ℝ) / 120 * 100) 5 100 = 5 := by
      unfold clamp
      rw [max_eq_right (by norm_num), min_eq_left (by norm_num)]
    rw [h2]
    exact jround_fix (n := 5) (by norm_num) (by norm_num) (by norm_num)
  refine ⟨hbg, hsg, ?_⟩
  rw [predict_gfr, hsg, hse]
  have hprod : Real.exp (-((365 : ℝ) / 30 / 6)) * Real.exp ((365 : ℝ) / 30 / 6) = 1 := by
    rw [← Real.exp_add]
    norm_num
  have h4 : (545 : ℝ) / 180 < Real.exp ((365 : ℝ) / 30 / 6) := by
    have h5 := Real.add_one_lt_exp (show ((365 : ℝ) / 30 / 6) ≠ 0 by norm_num)
    have h6 : ((365 : ℝ) / 30 / 6) + 1 = 545 / 180 := by norm_num
    linarith
  have hE : Real.exp (-((365 : ℝ) / 30 / 6)) < 180 / 545 := by
    nlinarith [mul_pos (Real.exp_pos (-((365 : ℝ) / 30 / 6)))
      (sub_pos.mpr h4), hprod]
  have hx : (5 : ℝ) + ((5 : ℝ) - 40) * 0.08 * (1 - Real.exp (-((365 : ℝ) / 30 / 6))) * 2 ≤
      (13 : ℝ) / 10 := by linarith
  have hr := round1_le (n := 13) hx
  have : ((13 : ℤ) : ℝ) / 10 < 3 := by norm_num
  calc round1 ((5 : ℝ) + ((5 : ℝ) - 40) * 0.08 *
        (1 - Real.exp (-((365 : ℝ) / 30 / 6))) * 2) ≤ ((13 : ℤ) : ℝ) / 10 := hr
    _ < 3 := by norm_num

theorem clamp01_mem (x : ℝ) : 0 ≤ clamp x 0 100 ∧ clamp x 0 100 ≤ 100 :=
  ⟨left_le_clamp x (by norm_num), clamp_le_right x 0 100⟩

theorem jround_clamp01_mem (x : ℝ) :
    0 ≤ jround (clamp x 0 100) ∧ jround (clamp x 0 100) ≤ 100 :=
  ⟨jround_nonneg (left_le_clamp x (by norm_num)),
    jround_le_hundred (clamp_le_right x 0 100)⟩

theorem le_jround_num {x a : ℝ} {n : ℤ} (hn : (n : ℝ) = a) (h : a ≤ x) : a ≤ jround x := by
  subst hn
  exact le_jround h

theorem jround_le_num {x a : ℝ} {n : ℤ} (hn : (n : ℝ) = a) (h : x ≤ a) : jround x ≤ a := by
  subst hn
  exact jround_le h

/-- C1 (amended): every 0-100 field of `calculateBaselineMetrics` lies in
`[0,100]` and its GFR in `[3,160]`; `simulateTreatment` keeps its GFR in
`[5,150]`, every re-clamped field in `[0,100]`, its stone/CKD/CV risks in
range whenever the baseline's are, and its stress/AKI/infection scores are
nonnegative and stay `≤ 100` when the net stress reduction is nonnegative;
`predictFutureMetrics` (nonnegative horizon, in-range input) keeps every
moved field in range except the GFR, which is only confined to
`[-0.6, 159.6]` and in particular may leave `[3,160]`. -/
theorem claim_C1_field_ranges :
    (∀ p : PatientData,
      (3 ≤ (calculateBaselineMetrics p).gfr ∧ (calculateBaselineMetrics p).gfr ≤ 160) ∧
      (0 ≤ (calculateBaselineMetrics p).stoneRisk ∧ (calculateBaselineMetrics p).stoneRisk ≤ 100) ∧
      (0 ≤ (calculateBaselineMetrics p).stressIndex ∧ (calculateBaselineMetrics p).stressIndex ≤ 100) ∧
      (0 ≤ (calculateBaselineMetrics p).ckdProgressionRisk ∧ (calculateBaselineMetrics p).ckdProgressionRisk ≤ 100) ∧
      (0 ≤ (calculateBaselineMetrics p).cardiovascularRisk ∧ (calculateBaselineMetrics p).cardiovascularRisk ≤ 100) ∧
      (0 ≤ (calculateBaselineMetrics p).akirisk ∧ (calculateBaselineMetrics p).akirisk ≤ 100) ∧
      (0 ≤ (calculateBaselineMetrics p).infectionRisk ∧ (calculateBaselineMetrics p).infectionRisk ≤ 100) ∧
      (5 ≤ (calculateBaselineMetrics p).efficiency ∧ (calculateBaselineMetrics p).efficiency ≤ 100) ∧
      (0 ≤ (calculateBaselineMetrics p).electrolyteBalance ∧ (calculateBaselineMetrics p).electrolyteBalance ≤ 100) ∧
      (0 ≤ (calculateBaselineMetrics p).acidBaseBalance ∧ (calculateBaselineMetrics p).acidBaseBalance ≤ 100) ∧
      (0 ≤ (calculateBaselineMetrics p).mineralBoneScore ∧ (calculateBaselineMetrics p).mineralBoneScore ≤ 100) ∧
      (0 ≤ (calculateBaselineMetrics p).anemiaScore ∧ (calculateBaselineMetrics p).anemiaScore ≤ 100) ∧
      (0 ≤ (calculateBaselineMetrics p).inflammationScore ∧ (calculateBaselineMetrics p).inflammationScore ≤ 100) ∧
      (0 ≤ (calculateBaselineMetrics p).tubularReabsorption ∧ (calculateBaselineMetrics p).tubularReabsorption ≤ 100) ∧
      (0 ≤ (calculateBaselineMetrics p).kidneyPerfusionIndex ∧ (calculateBaselineMetrics p).kidneyPerfusionIndex ≤ 100) ∧
      (0 ≤ (calculateBaselineMetrics p).nephronHealth ∧ (calculateBaselineMetrics p).nephronHealth ≤ 100) ∧
      (0 ≤ (calculateBaselineMetrics p).interstitialHealth ∧ (calculateBaselineMetrics p).interstitialHealth ≤ 100) ∧
      (0 ≤ (calculateBaselineMetrics p).vascularHealth ∧ (calculateBaselineMetrics p).vascularHealth ≤ 100) ∧
      (0 ≤ (calculateBaselineMetrics p).overallHealthScore ∧ (calculateBaselineMetrics p).overallHealthScore ≤ 100) ∧
      (0 ≤ (calculateBaselineMetrics p).riskHeatmap.glomerular ∧ (calculateBaselineMetrics p).riskHeatmap.glomerular ≤ 100) ∧
      (0 ≤ (calculateBaselineMetrics p).riskHeatmap.tubular ∧ (calculateBaselineMetrics p).riskHeatmap.tubular ≤ 100) ∧
      (0 ≤ (calculateBaselineMetrics p).riskHeatmap.vascular ∧ (calculateBaselineMetrics p).riskHeatmap.vascular ≤ 100) ∧
      (0 ≤ (calculateBaselineMetrics p).riskHeatmap.interstitial ∧ (calculateBaselineMetrics p).riskHeatmap.interstitial ≤ 100) ∧
      (0 ≤ (calculateBaselineMetrics p).riskHeatmap.collecting ∧ (calculateBaselineMetrics p).riskHeatmap.collecting ≤ 100) ∧
      (0 ≤ (calculateBaselineMetrics p).riskHeatmap.cortex ∧ (calculateBaselineMetrics p).riskHeatmap.cortex ≤ 100) ∧
      (0 ≤ (calculateBaselineMetrics p).riskHeatmap.medulla ∧ (calculateBaselineMetrics p).riskHeatmap.medulla ≤ 100)) ∧
    (∀ (b : KidneyMetrics) (p : PatientData) (ts : List Treatment) (adj : Adjustments),
      (5 ≤ (simulateTreatment b p ts adj).gfr ∧ (simulateTreatment b p ts adj).gfr ≤ 150) ∧
      (5 ≤ (simulateTreatment b p ts adj).efficiency ∧ (simulateTreatment b p ts adj).efficiency ≤ 100) ∧
      (0 ≤ (simulateTreatment b p ts adj).electrolyteBalance ∧ (simulateTreatment b p ts adj).electrolyteBalance ≤ 100) ∧
      (0 ≤ (simulateTreatment b p ts adj).acidBaseBalance ∧ (simulateTreatment b p ts adj).acidBaseBalance ≤ 100) ∧
      (0 ≤ (simulateTreatment b p ts adj).mineralBoneScore ∧ (simulateTreatment b p ts adj).mineralBoneScore ≤ 100) ∧
      (0 ≤ (simulateTreatment b p ts adj).anemiaScore ∧ (simulateTreatment b p ts adj).anemiaScore ≤ 100) ∧
      (0 ≤ (simulateTreatment b p ts adj).inflammationScore ∧ (simulateTreatment b p ts adj).inflammationScore ≤ 100) ∧
      (0 ≤ (simulateTreatment b p ts adj).kidneyPerfusionIndex ∧ (simulateTreatment b p ts adj).kidneyPerfusionIndex ≤ 100) ∧
      (0 ≤ (simulateTreatment b p ts adj).nephronHealth ∧ (simulateTreatment b p ts adj).nephronHealth ≤ 100) ∧
      (0 ≤ (simulateTreatment b p ts adj).interstitialHealth ∧ (simulateTreatment b p ts adj).interstitialHealth ≤ 100) ∧
      (0 ≤ (simulateTreatment b p ts adj).vascularHealth ∧ (simulateTreatment b p ts adj).vascularHealth ≤ 100) ∧
      (0 ≤ (simulateTreatment b p ts adj).overallHealthScore ∧ (simulateTreatment b p ts adj).overallHealthScore ≤ 100) ∧
      (0 ≤ (simulateTreatment b p ts adj).riskHeatmap.glomerular ∧ (simulateTreatment b p ts adj).riskHeatmap.glomerular ≤ 100) ∧
      (0 ≤ (simulateTreatment b p ts adj).riskHeatmap.tubular ∧ (simulateTreatment b p ts adj).riskHeatmap.tubular ≤ 100) ∧
      (0 ≤ (simulateTreatment b p ts adj).riskHeatmap.vascular ∧ (simulateTreatment b p ts adj).riskHeatmap.vascular ≤ 100) ∧
      (0 ≤ (simulateTreatment b p ts adj).riskHeatmap.interstitial ∧ (simulateTreatment b p ts adj).riskHeatmap.interstitial ≤ 100) ∧
      (0 ≤ (simulateTreatment b p ts adj).riskHeatmap.collecting ∧ (simulateTreatment b p ts adj).riskHeatmap.collecting ≤ 100) ∧
      (0 ≤ (simulateTreatment b p ts adj).riskHeatmap.cortex ∧ (simulateTreatment b p ts adj).riskHeatmap.cortex ≤ 100) ∧
      (0 ≤ (simulateTreatment b p ts adj).riskHeatmap.medulla ∧ (simulateTreatment b p ts adj).riskHeatmap.medulla ≤ 100) ∧
      (0 ≤ (simulateTreatment b p ts adj).stoneRisk ∧
        (b.stoneRisk ≤ 100 → (simulateTreatment b p ts adj).stoneRisk ≤ 100)) ∧
      (0 ≤ (simulateTreatment b p ts adj).ckdProgressionRisk ∧
        (b.ckdProgressionRisk ≤ 100 → (simulateTreatment b p ts adj).ckdProgressionRisk ≤ 100)) ∧
      (0 ≤ (simulateTreatment b p ts adj).cardiovascularRisk ∧
        (b.cardiovascularRisk ≤ 100 → (simulateTreatment b p ts adj).cardiovascularRisk ≤ 100)) ∧
      (0 ≤ (simulateTreatment b p ts adj).stressIndex ∧
        (b.stressIndex ≤ 100 → 0 ≤ (netDeltas p ts adj).stressReduction →
          (simulateTreatment b p ts adj).stressIndex ≤ 100)) ∧
      (0 ≤ (simulateTreatment b p ts adj).akirisk ∧
        (b.akirisk ≤ 100 → 0 ≤ (netDeltas p ts adj).stressReduction →
          (simulateTreatment b p ts adj).akirisk ≤ 100)) ∧
      (0 ≤ (simulateTreatment b p ts adj).infectionRisk ∧
        (b.infectionRisk ≤ 100 → 0 ≤ (netDeltas p ts adj).stressReduction →
          (simulateTreatment b p ts adj).infectionRisk ≤ 100))) ∧
    (∀ (m : KidneyMetrics) (d : ℝ), 0 ≤ d →
      5 ≤ m.gfr → m.gfr ≤ 150 → 5 ≤ m.efficiency → m.efficiency ≤ 100 →
      0 ≤ m.stressIndex → m.stressIndex ≤ 100 →
      0 ≤ m.stoneRisk → m.stoneRisk ≤ 100 →
      0 ≤ m.ckdProgressionRisk → m.ckdProgressionRisk ≤ 100 →
      0 ≤ m.cardiovascularRisk → m.cardiovascularRisk ≤ 100 →
      ((-0.6 ≤ (predictFutureMetrics m d).gfr ∧ (predictFutureMetrics m d).gfr ≤ 159.6) ∧
       (5 ≤ (predictFutureMetrics m d).efficiency ∧ (predictFutureMetrics m d).efficiency ≤ 100) ∧
       (0 ≤ (predictFutureMetrics m d).stressIndex ∧ (predictFutureMetrics m d).stressIndex ≤ 100) ∧
       (0 ≤ (predictFutureMetrics m d).stoneRisk ∧ (predictFutureMetrics m d).stoneRisk ≤ 100) ∧
       (0 ≤ (predictFutureMetrics m d).ckdProgressionRisk ∧ (predictFutureMetrics m d).ckdProgressionRisk ≤ 100) ∧
       (0 ≤ (predictFutureMetrics m d).cardiovascularRisk ∧ (predictFutureMetrics m d).cardiovascularRisk ≤ 100) ∧
       (0 ≤ (predictFutureMetrics m d).overallHealthScore ∧ (predictFutureMetrics m d).overallHealthScore ≤ 100) ∧
       (0 ≤ (predictFutureMetrics m d).riskHeatmap.glomerular ∧ (predictFutureMetrics m d).riskHeatmap.glomerular ≤ 100) ∧
       (0 ≤ (predictFutureMetrics m d).riskHeatmap.tubular ∧ (predictFutureMetrics m d).riskHeatmap.tubular ≤ 100) ∧
       (0 ≤ (predictFutureMetrics m d).riskHeatmap.vascular ∧ (predictFutureMetrics m d).riskHeatmap.vascular ≤ 100))) := by
  refine ⟨?_, ?_, ?_⟩
  · intro p
    have hs1 := (clamp01_mem (stressIndexRaw p)).1
    have hs2 := (clamp01_mem (stressIndexRaw p)).2
    refine ⟨?_, ?_, ?_, ?_, ?_, ?_, ?_, ?_, ?_, ?_, ?_, ?_, ?_, ?_, ?_, ?_, ?_, ?_, ?_,
      ?_, ?_, ?_, ?_, ?_, ?_, ?_⟩
    · rw [baseline_gfr]
      exact calculateGFR_mem p.age p.gender p.serumCreatinine p.weight
    · rw [baseline_stoneRisk]
      exact jround_clamp01_mem (stoneRiskRaw p)
    · rw [baseline_stressIndex]
      exact jround_clamp01_mem (stressIndexRaw p)
    · rw [baseline_ckdProgressionRisk]
      exact jround_clamp01_mem (ckdProgressionRaw p)
    · rw [baseline_cardiovascularRisk]
      exact jround_clamp01_mem (cvRiskRaw p)
    · rw [baseline_akirisk]
      exact jround_clamp01_mem (akiriskRaw p)
    · rw [baseline_infectionRisk]
      exact jround_clamp01_mem (infectionRiskRaw p)
    · rw [baseline_efficiency]
      constructor
      · refine le_jround_num (n := 5) (by norm_num) ?_
        exact le_max_right _ _
      · exact jround_le_hundred (max_le (min_le_right _ _) (by norm_num))
    · rw [baseline_electrolyteBalance]
      exact jround_clamp01_mem (electrolyteBalanceRaw p)
    · rw [baseline_acidBaseBalance]
      exact jround_clamp01_mem _
    · rw [baseline_mineralBoneScore]
      exact jround_clamp01_mem (mineralBoneRaw p)
    · rw [baseline_anemiaScore]
      exact jround_clamp01_mem (anemiaRaw p)
    · rw [baseline_inflammationScore]
      exact jround_clamp01_mem (inflammationRaw p)
    · constructor
      · show 0 ≤ jround (99 - stressIndexVal p * 0.05)
        refine jround_nonneg ?_
        show (0 : ℝ) ≤ 99 - clamp (stressIndexRaw p) 0 100 * 0.05
        linarith
      · show jround (99 - stressIndexVal p * 0.05) ≤ 100
        refine jround_le_hundred ?_
        show 99 - clamp (stressIndexRaw p) 0 100 * 0.05 ≤ 100
        linarith
    · rw [baseline_kidneyPerfusionIndex]
      exact jround_clamp01_mem (kidneyPerfusionRaw p)
    · rw [baseline_nephronHealth]
      exact clamp01_mem _
    · rw [baseline_interstitialHealth]
      exact jround_clamp01_mem (interstitialRaw p)
    · rw [baseline_vascularHealth]
      exact jround_clamp01_mem (vascularRaw p)
    · rw [baseline_overallHealthScore]
      exact clamp01_mem _
    · exact clamp01_mem (100 - (100 - efficiencyVal p) * 1.2)
    · exact clamp01_mem (100 - stressIndexVal p * 0.8)
    · exact clamp01_mem (vascularRaw p)
    · exact clamp01_mem (interstitialRaw p)
    · exact clamp01_mem (90 - stoneRiskVal p * 0.3)
    · exact clamp01_mem (nephronHealthVal p * 0.9 + kidneyPerfusionVal p * 0.1)
    · exact clamp01_mem (85 - stressIndexVal p * 0.3 - stoneRiskVal p * 0.2)
  · intro b p ts adj
    obtain ⟨hr1, hr2, hr3⟩ := netDeltas_reductions_nonneg p ts adj
    refine ⟨?_, ?_, ?_, ?_, ?_, ?_, ?_, ?_, ?_, ?_, ?_, ?_, ?_, ?_, ?_, ?_, ?_, ?_, ?_,
      ?_, ?_, ?_, ?_, ?_, ?_⟩
    · rw [simulate_gfr]
      exact round1_clamp_mem _ (m := 50) (by norm_num) (n := 1500) (by norm_num) (by norm_num)
    · rw [simulate_efficiency]
      constructor
      · exact le_jround_num (n := 5) (by norm_num) (left_le_clamp _ (by norm_num))
      · exact jround_le_hundred (clamp_le_right _ _ _)
    · rw [simulate_electrolyteBalance]
      exact clamp01_mem _
    · rw [simulate_acidBaseBalance]
      exact clamp01_mem _
    · rw [simulate_mineralBoneScore]
      exact clamp01_mem _
    · rw [simulate_anemiaScore]
      exact clamp01_mem _
    · rw [simulate_inflammationScore]
      exact clamp01_mem _
    · rw [simulate_kidneyPerfusionIndex]
      exact clamp01_mem _
    · rw [simulate_nephronHealth]
      exact clamp01_mem _
    · rw [simulate_interstitialHealth]
      exact clamp01_mem _
    · rw [simulate_vascularHealth]
      exact clamp01_mem _
    · show 0 ≤ clamp _ 0 100 ∧ clamp _ 0 100 ≤ 100
      exact clamp01_mem _
    · rw [simulate_heatmap_glomerular]
      exact clamp01_mem _
    · rw [simulate_heatmap_tubular]
      exact clamp01_mem _
    · rw [simulate_heatmap_vascular]
      exact clamp01_mem _
    · rw [simulate_heatmap_interstitial]
      exact clamp01_mem _
    · rw [simulate_heatmap_collecting]
      exact clamp01_mem _
    · show 0 ≤ clamp _ 0 100 ∧ clamp _ 0 100 ≤ 100
      exact clamp01_mem _
    · rw [simulate_heatmap_medulla]
      exact clamp01_mem _
    · rw [simulate_stoneRisk]
      refine ⟨jround_nonneg (le_max_right _ _), fun hb => ?_⟩
      exact jround_le_hundred (max_le (by linarith) (by norm_num))
    · rw [simulate_ckdProgressionRisk]
      refine ⟨jround_nonneg (le_max_right _ _), fun hb => ?_⟩
      exact jround_le_hundred (max_le (by linarith) (by norm_num))
    · rw [simulate_cardiovascularRisk]
      refine ⟨jround_nonneg (le_max_right _ _), fun hb => ?_⟩
      exact jround_le_hundred (max_le (by linarith) (by norm_num))
    · rw [simulate_stressIndex]
      refine ⟨jround_nonneg (le_max_right _ _), fun hb hsr => ?_⟩
      exact jround_le_hundred (max_le (by linarith) (by norm_num))
    · rw [simulate_akirisk]
      refine ⟨jround_nonneg (le_max_right _ _), fun hb hsr => ?_⟩
      refine jround_le_hundred (max_le (by nlinarith) (by norm_num))
    · rw [simulate_infectionRisk]
      refine ⟨jround_nonneg (le_max_right _ _), fun hb hsr => ?_⟩
      refine jround_le_hundred (max_le (by nlinarith) (by norm_num))
  · intro m d hd hg1 hg2 he1 he2 hst1 hst2 hsk1 hsk2 hck1 hck2 hcv1 hcv2
    have hE1 : Real.exp (-(d / 30 / 6)) ≤ 1 := Real.exp_le_one_iff.mpr (by linarith)
    have hE0 : 0 < Real.exp (-(d / 30 / 6)) := Real.exp_pos _
    have hF0 : 0 ≤ 1 - Real.exp (-(d / 30 / 6)) := by linarith
    have hF1 : 1 - Real.exp (-(d / 30 / 6)) ≤ 1 := by linarith
    have key1 : 0 ≤ (m.efficiency - 5) * (1 - Real.exp (-(d / 30 / 6))) :=
      mul_nonneg (by linarith) hF0
    have key2 : 0 ≤ (100 - m.efficiency) * (1 - Real.exp (-(d / 30 / 6))) :=
      mul_nonneg (by linarith) hF0
    refine ⟨?_, ?_, ?_, ?_, ?_, ?_, ?_, ?_, ?_, ?_⟩
    · rw [predict_gfr]
      constructor
      · have h := le_round1 (n := -6)
          (x := m.gfr + (m.efficiency - 40) * 0.08 * (1 - Real.exp (-(d / 30 / 6))) * 2)
          (by push_cast; nlinarith)
        push_cast at h
        linarith
      · have h := round1_le (n := 1596)
          (x := m.gfr + (m.efficiency - 40) * 0.08 * (1 - Real.exp (-(d / 30 / 6))) * 2)
          (by push_cast; nlinarith)
        push_cast at h
        linarith
    · rw [predict_efficiency]
      constructor
      · exact le_jround_num (n := 5) (by norm_num) (left_le_clamp _ (by norm_num))
      · exact jround_le_hundred (clamp_le_right _ _ _)
    · rw [predict_stressIndex]
      refine ⟨jround_nonneg (le_max_right _ _), ?_⟩
      exact jround_le_hundred (max_le (by nlinarith) (by norm_num))
    · rw [predict_stoneRisk]
      refine ⟨jround_nonneg (le_max_right _ _), ?_⟩
      exact jround_le_hundred (max_le (by nlinarith) (by norm_num))
    · rw [predict_ckdProgressionRisk]
      refine ⟨jround_nonneg (le_max_right _ _), ?_⟩
      exact jround_le_hundred (max_le (by nlinarith) (by norm_num))
    · rw [predict_cardiovascularRisk]
      refine ⟨jround_nonneg (le_max_right _ _), ?_⟩
      exact jround_le_hundred (max_le (by nlinarith) (by norm_num))
    · rw [predict_overallHealthScore]
      exact clamp01_mem _
    · rw [predict_heatmap_glomerular]
      exact clamp01_mem _
    · rw [predict_heatmap_tubular]
      exact clamp01_mem _
    · rw [predict_heatmap_vascular]
      exact clamp01_mem _

/-- C1 witness: the projection part instantiated at the fixed-point
snapshot with a 30-day horizon, all hypotheses discharged concretely. -/
theorem claim_C1_field_ranges_witness :
    (0 : ℝ) ≤ 30 ∧ -0.6 ≤ (predictFutureMetrics niceMetrics 30).gfr := by
  have h := claim_C1_field_ranges.2.2 niceMetrics 30 (by norm_num)
    (by norm_num [niceMetrics, offGridMetrics]) (by norm_num [niceMetrics, offGridMetrics])
    (by norm_num [niceMetrics, offGridMetrics]) (by norm_num [niceMetrics, offGridMetrics])
    (by norm_num [niceMetrics, offGridMetrics]) (by norm_num [niceMetrics, offGridMetrics])
    (by norm_num [niceMetrics, offGridMetrics]) (by norm_num [niceMetrics, offGridMetrics])
    (by norm_num [niceMetrics, offGridMetrics]) (by norm_num [niceMetrics, offGridMetrics])
    (by norm_num [niceMetrics, offGridMetrics]) (by norm_num [niceMetrics, offGridMetrics])
  exact ⟨by norm_num, h.1.1⟩

end Kidney
